import Mathlib

/-!
A shallow embedding of the battle core of the `battle-simulator` repository
(`src/core/hero.py`, `src/battle/status_manager.py`, `src/battle/skill_processor.py`,
`src/battle/simulator.py`) together with theorems checking the natural-language
specification against it.

Modelling conventions:
* Python integers become `Int`; quantities that Python keeps as floats
  (crit rate, crit damage, skill coefficients, effect values) become `ℚ`,
  i.e. real arithmetic is modelled exactly in the rationals.
* Python's `int(x)` conversion (truncation towards zero) is `pyInt`.
* `random.random()` draws are modelled by an explicit stream of rationals
  (`List ℚ`), consumed in exactly the order the source draws them.
* Python dictionaries with a fixed key set become structures; optional keys
  (`dict.get` with handler-specific defaults) become `Option` fields.
* Code paths on which the Python source raises an exception (attribute access
  on `None`) are modelled with `Except String`.
* Configuration constants are taken from `src/config.py`
  (`DAMAGE_FORMULA_PARAMS`: defense_param1 = 15, defense_param2 = 600,
  min_damage = 100).
-/

/-- Python `int(x)` on a rational: truncation towards zero. -/
def pyInt (q : ℚ) : Int :=
  if q < 0 then -(Int.floor (-q)) else Int.floor q

/-- One `random.random()` draw from an explicit stream of rationals.
An exhausted stream yields 0 (theorems always supply enough draws). -/
def draw : List ℚ → ℚ × List ℚ
  | [] => (0, [])
  | r :: rs => (r, rs)

/-- Python's substring test `sub in s` (on the underlying character lists). -/
def strContains (s sub : String) : Bool :=
  decide (sub.data <:+: s.data)

/-- Defense parameter 1 from `config.DAMAGE_FORMULA_PARAMS['defense_param1']`. -/
def defenseParam1 : Int := 15

/-- Defense parameter 2 from `config.DAMAGE_FORMULA_PARAMS['defense_param2']`. -/
def defenseParam2 : Int := 600

/-- Minimum damage from `config.DAMAGE_FORMULA_PARAMS['min_damage']`. -/
def minDamage : Int := 100

/-- `passive_states['unyielding_will']` of a hero (`hero.py` constructor). -/
structure UWState where
  revived : Bool
  attack_boost_remaining : Int
  attack_boost_amount : Int
deriving Repr, DecidableEq

/-- One entry of `hero.status_effects`: a Python dict with a `type`, a
`duration` and effect-specific payload keys (absent keys keep defaults;
`has_original_defense` models presence of the `original_defense` key). -/
structure StatusEffect where
  type : String
  duration : Int
  buff_type : String := ""
  debuff_type : String := ""
  value : ℚ := 0
  is_percentage : Bool := true
  boost_amount : Int := 0
  reduction_amount : Int := 0
  has_original_defense : Bool := false
  original_defense : Int := 0
  amount : ℚ := 0
deriving Repr, DecidableEq

/-- One authored effect of a data-driven custom skill
(the `effect_data` dicts consumed by `SkillProcessor._process_custom_*`).
`duration`/`is_percentage` are `Option` because the handlers use different
`dict.get` defaults for the same key. -/
structure CustomEffect where
  type : String
  probability : ℚ := 1
  base_damage : ℚ := 0
  damage_multiplier : ℚ := 1
  ignore_defense : Bool := false
  can_crit : Bool := true
  base_heal : ℚ := 0
  heal_multiplier : ℚ := 1
  is_percentage : Option Bool := none
  buff_type : String := "attack"
  debuff_type : String := "attack"
  value : ℚ := 0
  duration : Option Int := none
  control_type : String := "stun"
  shield_amount : ℚ := 0
  status_type : String := ""
  target_type : String := ""
  damage_type : String := "physical"
deriving Repr, DecidableEq

/-- One skill dict as stored in `hero.skills` / passed to the skill processor.
`excelType` is the raw `技能类型` key (absent on hero-built skill dicts, hence
defaulted to `""`), `excelDamageType` the `技能伤害类型` key,
`damageTypeCode` the `damage_type` key, `level` the `level` key,
`level_values` the `level_values` dict keyed by hero level. -/
structure Skill where
  name : String
  description : String := ""
  cooldown : Int := 0
  current_cooldown : Int := 0
  skill_type : String := ""
  excelType : String := ""
  excelDamageType : String := ""
  damageTypeCode : String := ""
  level : Int := 1
  level_values : List (Int × ℚ) := []
  has_effects : Bool := false
  effects : List CustomEffect := []
deriving Repr, DecidableEq

/-- The mutable runtime state of one combatant (`Hero` in `core/hero.py`).
`uw` is `passive_states['unyielding_will']` (present only for heroes carrying
the passive), `frost_slow` the `remaining` counters of
`passive_states['frost_blood']['slow_effects']`. -/
structure Hero where
  name : String := ""
  level : Int := 1
  role : String := ""
  rank : String := ""
  keywords : String := ""
  max_health : Int := 1000
  attack : Int := 100
  defense : Int := 50
  crit_rate : ℚ := 1/10
  crit_damage : ℚ := 3/2
  health : Int := 1000
  shield_amount : Int := 0
  max_shield : Int := 0
  is_frozen : Bool := false
  is_stunned : Bool := false
  is_taunted : Bool := false
  is_paralyzed : Bool := false
  status_effects : List StatusEffect := []
  skills : List Skill := []
  uw : Option UWState := none
  frost_slow : List Int := []
deriving Repr, DecidableEq

/-- Result dict of `Hero.take_damage`. -/
structure DamageResult where
  damage_taken : Int
  original_health : Int
  is_alive : Bool
  passive_triggered : Bool
  triggered_passive : String := ""
  revived : Bool
  shield_absorbed : Int := 0
  shield_broken : Bool := false
  damage_after_shield : Int := 0
  health_after_damage : Int := 0
  revive_health : Int := 0
  attack_boost_remaining : Int := 0
  attack_boost_amount : Int := 0
deriving Repr, DecidableEq

/-- An entry of an `effects` / `extra_effects` list returned by an action
(log payload rendered by the scheduler). -/
structure EffectDesc where
  type : String
  subtype : String := ""
  damage : Int := 0
  amount : ℚ := 0
  is_crit : Bool := false
  duration : Int := 0
  target : String := ""
deriving Repr, DecidableEq

/-- Result dict of `Hero.attack_target`. -/
structure AttackResult where
  damage : Int
  is_crit : Bool
  target_health : Int
  extra_effects : List EffectDesc := []
  message : String := ""
deriving Repr, DecidableEq

/-- Result dict of `Hero.use_skill` / `SkillProcessor.process_skill`. -/
structure SkillResult where
  success : Bool
  skill_name : String := ""
  message : String := ""
  effects : List EffectDesc := []
deriving Repr, DecidableEq

/-- `StatusManager._remove_buff_effect`: revert an expiring buff by the
delta recorded at apply time. -/
def removeBuffEffect (h : Hero) (e : StatusEffect) : Hero :=
  if e.buff_type = "attack" then
    { h with attack := h.attack - e.boost_amount }
  else if e.buff_type = "defense" then
    { h with defense := h.defense - e.boost_amount }
  else if e.buff_type = "crit_rate" then
    { h with crit_rate := h.crit_rate - e.value }
  else if e.buff_type = "crit_damage" then
    { h with crit_damage := h.crit_damage - e.value }
  else if e.buff_type = "max_health" then
    let mh := h.max_health - e.boost_amount
    { h with max_health := mh, health := min h.health mh }
  else h

/-- `StatusManager._remove_debuff_effect`: revert an expiring debuff by the
delta recorded at apply time. -/
def removeDebuffEffect (h : Hero) (e : StatusEffect) : Hero :=
  if e.debuff_type = "attack" then
    { h with attack := h.attack + e.reduction_amount }
  else if e.debuff_type = "defense" then
    { h with defense := h.defense + e.reduction_amount }
  else if e.debuff_type = "crit_rate" then
    { h with crit_rate := h.crit_rate + e.value }
  else if e.debuff_type = "crit_damage" then
    { h with crit_damage := h.crit_damage + e.value }
  else h

/-- The in-place duration decrement `effect['duration'] -= 1` of
`StatusManager.update_hero_status`. -/
def StatusEffect.tick (e : StatusEffect) : StatusEffect :=
  { e with duration := e.duration - 1 }

/-- One iteration of the loop in `StatusManager.update_hero_status`:
decrement the effect's duration; keep it if still positive, otherwise revert
its numeric impact and drop it. -/
def tickEffect (h : Hero) (e : StatusEffect) : Hero × Option StatusEffect :=
  let e := e.tick
  if e.duration > 0 then (h, some e)
  else if e.type = "freeze" then ({ h with is_frozen := false }, none)
  else if e.type = "stun" then ({ h with is_stunned := false }, none)
  else if e.type = "taunt" then ({ h with is_taunted := false }, none)
  else if e.type = "paralyze" then ({ h with is_paralyzed := false }, none)
  else if e.type = "armor_reduction" then
    (if e.has_original_defense then { h with defense := e.original_defense } else h, none)
  else if e.type = "shield" then
    ({ h with shield_amount := 0, max_shield := 0 }, none)
  else if e.type = "buff" then (removeBuffEffect h e, none)
  else if e.type = "debuff" then (removeDebuffEffect h e, none)
  else (h, none)

/-- `StatusManager._update_passive_states`: tick the unyielding-will attack
boost (reverting the recorded boost when it reaches 0) and the frost-blood
slow counters. -/
def updatePassiveStates (h : Hero) : Hero :=
  let h :=
    match h.uw with
    | some st =>
      if st.attack_boost_remaining > 0 then
        let rem := st.attack_boost_remaining - 1
        if rem = 0 then
          { h with attack := h.attack - st.attack_boost_amount,
                   uw := some ⟨st.revived, 0, 0⟩ }
        else { h with uw := some ⟨st.revived, rem, st.attack_boost_amount⟩ }
      else h
    | none => h
  { h with frost_slow := (h.frost_slow.map (· - 1)).filter (· > 0) }

/-- `StatusManager.update_hero_status`: tick every active effect in order,
reverting and removing the expired ones, then tick the passive states. -/
def updateHeroStatus (h : Hero) : Hero :=
  let p := h.status_effects.foldl
    (fun (p : Hero × List StatusEffect) e =>
      let q := tickEffect p.1 e
      (q.1, match q.2 with
            | some e => p.2 ++ [e]
            | none => p.2))
    (h, [])
  updatePassiveStates { p.1 with status_effects := p.2 }

/-- `StatusManager.apply_status_effect`: remove any existing effect of the
same type, append the new one, and set control flags immediately.  The caller
builds the effect dict (type, duration and keyword payload). -/
def applyStatusEffect (h : Hero) (eff : StatusEffect) : Hero :=
  let h := { h with status_effects :=
    (h.status_effects.filter (fun e => e.type ≠ eff.type)) ++ [eff] }
  if eff.type = "freeze" then { h with is_frozen := true }
  else if eff.type = "stun" then { h with is_stunned := true }
  else if eff.type = "taunt" then { h with is_taunted := true }
  else if eff.type = "paralyze" then { h with is_paralyzed := true }
  else h

/-- `StatusManager.apply_buff_effect`: compute the delta (percentage deltas
against the current stat), record it in the effect, mutate the stat, and
append the effect to the list (the source never removes an existing buff). -/
def applyBuffEffect (h : Hero) (buff_type : String) (value : ℚ) (duration : Int)
    (is_percentage : Bool) : Hero :=
  let eff : StatusEffect :=
    { type := "buff", buff_type := buff_type, value := value,
      duration := duration, is_percentage := is_percentage }
  let p : Hero × StatusEffect :=
    if buff_type = "attack" then
      let boost := if is_percentage then pyInt (h.attack * value) else pyInt value
      ({ h with attack := h.attack + boost }, { eff with boost_amount := boost })
    else if buff_type = "defense" then
      let boost := if is_percentage then pyInt (h.defense * value) else pyInt value
      ({ h with defense := h.defense + boost }, { eff with boost_amount := boost })
    else if buff_type = "crit_rate" then
      ({ h with crit_rate := h.crit_rate + value }, eff)
    else if buff_type = "crit_damage" then
      ({ h with crit_damage := h.crit_damage + value }, eff)
    else if buff_type = "max_health" then
      let boost := if is_percentage then pyInt (h.max_health * value) else pyInt value
      ({ h with max_health := h.max_health + boost, health := h.health + boost },
       { eff with boost_amount := boost })
    else (h, eff)
  { p.1 with status_effects := p.1.status_effects ++ [p.2] }

/-- `StatusManager.apply_debuff_effect`: compute and record the delta, mutate
the stat (clamped at 0, crit damage at 1), and append the effect. -/
def applyDebuffEffect (h : Hero) (debuff_type : String) (value : ℚ) (duration : Int)
    (is_percentage : Bool) : Hero :=
  let eff : StatusEffect :=
    { type := "debuff", debuff_type := debuff_type, value := value,
      duration := duration, is_percentage := is_percentage }
  let p : Hero × StatusEffect :=
    if debuff_type = "attack" then
      let red := if is_percentage then pyInt (h.attack * value) else pyInt value
      ({ h with attack := max 0 (h.attack - red) }, { eff with reduction_amount := red })
    else if debuff_type = "defense" then
      let red := if is_percentage then pyInt (h.defense * value) else pyInt value
      ({ h with defense := max 0 (h.defense - red) }, { eff with reduction_amount := red })
    else if debuff_type = "crit_rate" then
      ({ h with crit_rate := max 0 (h.crit_rate - value) }, eff)
    else if debuff_type = "crit_damage" then
      ({ h with crit_damage := max 1 (h.crit_damage - value) }, eff)
    else (h, eff)
  { p.1 with status_effects := p.1.status_effects ++ [p.2] }

/-- `StatusManager.apply_shield_effect`: set shield and shield cap to the
given amount and append the shield effect. -/
def applyShieldEffect (h : Hero) (shield_amount : Int) (duration : Int) : Hero :=
  let eff : StatusEffect :=
    { type := "shield", amount := (shield_amount : ℚ), duration := duration }
  { h with shield_amount := shield_amount, max_shield := shield_amount,
           status_effects := h.status_effects ++ [eff] }

/-- Whether `Hero.take_damage` intercepts a death: the post-shield remainder
is positive and lethal, the hero was alive, and it carries an untriggered
unyielding-will passive. -/
def uwIntercepts (h : Hero) (rem : Int) : Bool :=
  rem > 0 && h.health > 0 && h.health - rem ≤ 0 &&
    (match h.uw with
     | some st => !st.revived
     | none => false)

/-- `Hero.take_damage`: consume shield first, subtract the remainder from
health (floored at 0), and intercept a first death with the unyielding-will
passive (revive to 40% of max health, boost attack by
`int(attack * (0.55 + level * 0.05))` for 10 turns, set the one-shot flag). -/
def takeDamage (h : Hero) (damage : Int) : Hero × DamageResult :=
  let res : DamageResult :=
    { damage_taken := damage, original_health := h.health, is_alive := true,
      passive_triggered := false, revived := false }
  let p :=
    if h.shield_amount > 0 then
      let absorbed := min damage h.shield_amount
      let h := { h with shield_amount := h.shield_amount - absorbed }
      (h, damage - absorbed,
       { res with shield_absorbed := absorbed,
                  shield_broken := h.shield_amount = 0 })
    else (h, damage, res)
  let h := p.1
  let rem := p.2.1
  let res := p.2.2
  if rem > 0 then
    let old_health := h.health
    let newHealth := max 0 (h.health - rem)
    let h := { h with health := newHealth }
    let res := { res with damage_after_shield := rem, health_after_damage := newHealth }
    let q :=
      if old_health > 0 ∧ newHealth = 0 then
        match h.uw with
        | some st =>
          if !st.revived then
            let reviveHealth := pyInt ((h.max_health : ℚ) * (2/5))
            let boostPercent : ℚ := 11/20 + (h.level : ℚ) * (1/20)
            let boost := pyInt ((h.attack : ℚ) * boostPercent)
            ({ h with health := reviveHealth, attack := h.attack + boost,
                      uw := some ⟨true, 10, boost⟩ },
             { res with passive_triggered := true,
                        triggered_passive := "unyielding_will",
                        revived := true, revive_health := reviveHealth,
                        attack_boost_remaining := 10,
                        attack_boost_amount := boost })
          else (h, res)
        | none => (h, res)
      else (h, res)
    (q.1, { q.2 with is_alive := q.1.health > 0 })
  else (h, { res with is_alive := h.health > 0 })

/-- The role-counter block shared by `Hero._calculate_job_counter_damage` and
`SkillProcessor._calculate_job_counter_damage`: DPS→SNIP, SNIP→TANK and
TANK→DPS ×1.2, TANK vs TANK ×1.5. -/
def roleCounterDamage (attacker_role target_role : String) (d : Int) : Int :=
  if attacker_role = "DPS" ∧ target_role = "SNIP" then pyInt ((d : ℚ) * (6/5))
  else if attacker_role = "SNIP" ∧ target_role = "TANK" then pyInt ((d : ℚ) * (6/5))
  else if attacker_role = "TANK" ∧ target_role = "DPS" then pyInt ((d : ℚ) * (6/5))
  else if attacker_role = "TANK" ∧ target_role = "TANK" then pyInt ((d : ℚ) * (3/2))
  else d

/-- The rarity-counter block shared by both job-counter functions:
SSR→SR ×1.5, SSR→R ×2.0, SR→R ×1.5. -/
def rarityCounterDamage (attacker_rank target_rank : String) (d : Int) : Int :=
  if attacker_rank = "SSR" ∧ target_rank = "SR" then pyInt ((d : ℚ) * (3/2))
  else if attacker_rank = "SSR" ∧ target_rank = "R" then pyInt ((d : ℚ) * 2)
  else if attacker_rank = "SR" ∧ target_rank = "R" then pyInt ((d : ℚ) * (3/2))
  else d

/-- `Hero._calculate_job_counter_damage`: the role/rarity multiplier table of
the basic-attack path. -/
def heroJobCounterDamage (a t : Hero) (base_damage : Int) : Int :=
  rarityCounterDamage a.rank t.rank (roleCounterDamage a.role t.role base_damage)

/-- `SkillProcessor._calculate_job_counter_damage`: same table on the skill
path; the rarity rules only apply when both ranks are nonempty strings. -/
def spJobCounterDamage (attacker_role target_role : String) (base_damage : Int)
    (attacker_rank : String := "") (target_rank : String := "") : Int :=
  let d := roleCounterDamage attacker_role target_role base_damage
  if attacker_rank ≠ "" ∧ target_rank ≠ "" then
    rarityCounterDamage attacker_rank target_rank d
  else d

/-- The defense mitigation ratio `defense / (defense + (level * P1 + P2))`
shared by `Hero.attack_target` and `SkillProcessor.process_damage`. -/
def defenseReduction (defense level : Int) : ℚ :=
  (defense : ℚ) / ((defense : ℚ) + ((level : ℚ) * (defenseParam1 : ℚ) + (defenseParam2 : ℚ)))

/-- The mitigation-and-crit core formula shared verbatim by
`Hero.attack_target` and `SkillProcessor.process_damage`:
`int(base * (crit ? crit_damage : 1) * (1 - reduction))`; `r` is the crit
draw. -/
def mitigatedDamage (base : ℚ) (defense : Int) (crit_rate crit_damage : ℚ)
    (target_level : Int) (r : ℚ) : Int × Bool :=
  let red := defenseReduction defense target_level
  let is_crit := decide (r < crit_rate)
  (if is_crit then pyInt (base * crit_damage * (1 - red))
   else pyInt (base * (1 - red)), is_crit)

/-- `SkillProcessor.process_damage`: the core formula floored at the
configured minimum damage (role/rarity multipliers are applied by the
callers *after* this floor). -/
def processDamage (base_damage : ℚ) (defense : Int) (crit_rate crit_damage : ℚ)
    (target_level : Int) (r : ℚ) : Int × Bool :=
  let m := mitigatedDamage base_damage defense crit_rate crit_damage target_level r
  (max minDamage m.1, m.2)

/-- The damage computation of `Hero.attack_target`: the core formula, then
the role/rarity table, then the minimum-damage floor (note the order: the
floor comes *after* the multipliers on this path). -/
def attackTargetDamage (a t : Hero) (r : ℚ) : Int × Bool :=
  let m := mitigatedDamage (a.attack : ℚ) t.defense a.crit_rate a.crit_damage t.level r
  (max minDamage (heroJobCounterDamage a t m.1), m.2)

/-- The passive-trigger effect descriptor `Hero.attack_target` appends when a
hit revives the target (field `attack_boost_percent` of the source dict is
log-only and omitted). -/
def passiveTriggerDesc (dr : DamageResult) : EffectDesc :=
  { type := "passive_trigger", subtype := "unyielding_will",
    amount := (dr.attack_boost_amount : ℚ), duration := dr.attack_boost_remaining }

/-- `Hero.attack_target`: fail when controlled; otherwise compute the damage,
consume the target's shield, hand the remainder to `take_damage`, and resolve
the frost-blood passive (slow chance, bonus damage to frozen targets).
Returns the updated target; the attacker is never mutated. -/
def attackTarget (a t : Hero) (rng : List ℚ) : Hero × AttackResult × List ℚ :=
  if a.is_frozen ∨ a.is_stunned ∨ a.is_paralyzed then
    let ctype := if a.is_frozen then "冻结" else if a.is_stunned then "眩晕" else "麻痹"
    (t, { damage := 0, is_crit := false, target_health := t.health,
          message := a.name ++ " 处于" ++ ctype ++ "状态，无法行动" }, rng)
  else
    let d := draw rng
    let rng := d.2
    let pd := attackTargetDamage a t d.1
    let damage := pd.1
    let p :=
      if t.shield_amount > 0 then
        let absorbed := min damage t.shield_amount
        ({ t with shield_amount := t.shield_amount - absorbed }, damage - absorbed)
      else (t, damage)
    let t := p.1
    let q :=
      if p.2 > 0 then
        let td := takeDamage t p.2
        (td.1, if td.2.passive_triggered then [passiveTriggerDesc td.2] else [])
      else (t, [])
    let t := q.1
    let extra := q.2
    let fb :=
      if strContains a.keywords "寒冰血脉" then
        let d2 := draw rng
        let extra :=
          if d2.1 < 1/5 then
            extra ++ [{ type := "slow", duration := 5, target := t.name }]
          else extra
        let fr :=
          if t.status_effects.any (fun e => e.type = "freeze") then
            let ed := pyInt ((damage : ℚ) * (3/10))
            if ed > 0 then
              ({ t with health := max 0 (t.health - ed) },
               extra ++ [{ type := "attack", damage := ed, is_crit := false }])
            else (t, extra)
          else (t, extra)
        (fr.1, fr.2, d2.2)
      else (t, extra, rng)
    (fb.1, { damage := damage, is_crit := pd.2, target_health := fb.1.health,
             extra_effects := fb.2.1 }, fb.2.2)

/-- The state threaded through `SkillProcessor.process_skill` and its
handlers: caster, optional target, accumulated effect descriptors, RNG. -/
structure ProcOut where
  hero : Hero
  target : Option Hero
  result : SkillResult
  rng : List ℚ
deriving Repr, DecidableEq

/-- A `level_values` dict lookup (`level_values.get(hero.level, default)`). -/
def lookupLevel (lv : List (Int × ℚ)) (k : Int) (dflt : ℚ) : ℚ :=
  match lv.find? (fun p => p.1 = k) with
  | some p => p.2
  | none => dflt

/-- `SkillProcessor._get_skill_value`: the per-level skill coefficient,
defaulting to 0.2. -/
def getSkillValue (hero : Hero) (skill : Skill) : ℚ :=
  lookupLevel skill.level_values hero.level (1/5)

/-- `HeroDataLoader.get_skill_usage_type` on the string-valued `技能类型`
cell (a missing cell is the empty string and maps to `unknown`). -/
def getSkillUsageType (s : String) : String :=
  if s = "1" ∨ s = "1.0" then "active"
  else if s = "2" ∨ s = "2.0" then "passive"
  else "unknown"

/-- `HeroDataLoader.parse_damage_types` on the string-valued `技能伤害类型`
cell (missing cell = empty string = no types). -/
def parseDamageTypes (s : String) : List String :=
  if s = "" then []
  else (s.splitOn ",").filterMap (fun c =>
    let c := c.trim
    if c = "1" then some "damage"
    else if c = "2" then some "control"
    else if c = "3" then some "buff"
    else if c = "4" then some "other"
    else none)

/-- The integer codes in a `damage_type` field, as parsed by
`SkillProcessor._process_control_skill` (comma-separated digits). -/
def parseDamageCodes (s : String) : List Int :=
  (s.splitOn ",").filterMap (fun c =>
    let c := c.trim
    if c.length > 0 ∧ c.all Char.isDigit then (c.toNat?).map Int.ofNat
    else none)

/-- `SkillProcessor._process_custom_damage`: authored damage effect; applies
the mitigation formula unless `ignore_defense`, then the role/rarity table,
then shield-first application (health subtracted directly, clamped at 0). -/
def processCustomDamage (hero : Hero) (e : CustomEffect) (target : Option Hero)
    (res : SkillResult) (rng : List ℚ) : ProcOut :=
  match target with
  | none => ⟨hero, target, res, rng⟩
  | some t =>
    let fd := pyInt (e.base_damage * e.damage_multiplier)
    let p :=
      if !e.ignore_defense then
        let d := draw rng
        let pd := processDamage (fd : ℚ) t.defense
          (if e.can_crit then hero.crit_rate else 0) hero.crit_damage t.level d.1
        (pd.1, pd.2, d.2)
      else (fd, false, rng)
    let final_damage := spJobCounterDamage hero.role t.role p.1 hero.rank t.rank
    let q :=
      if t.shield_amount > 0 then
        let absorbed := min final_damage t.shield_amount
        ({ t with shield_amount := t.shield_amount - absorbed }, final_damage - absorbed)
      else (t, final_damage)
    let t := q.1
    let t := if q.2 > 0 then { t with health := max 0 (t.health - q.2) } else t
    ⟨hero, some t,
     { res with effects := res.effects ++
        [{ type := "attack", damage := final_damage, is_crit := p.2.1, target := t.name }] },
     p.2.2⟩

/-- `SkillProcessor._process_custom_heal`: heal the resolved target (self
unless `single_ally`), percentage heals against max health, clamped at max
health.  A `single_ally` heal without a target raises in the source. -/
def processCustomHeal (hero : Hero) (e : CustomEffect) (target : Option Hero)
    (res : SkillResult) (rng : List ℚ) : Except String ProcOut :=
  let isAlly := e.target_type = "single_ally"
  let healOn : Hero → Hero := fun ht =>
    let amt :=
      if e.is_percentage.getD false then
        pyInt ((ht.max_health : ℚ) * e.base_heal * e.heal_multiplier)
      else pyInt (e.base_heal * e.heal_multiplier)
    { ht with health := min (ht.health + amt) ht.max_health }
  let healAmt : Hero → Int := fun ht =>
    if e.is_percentage.getD false then
      pyInt ((ht.max_health : ℚ) * e.base_heal * e.heal_multiplier)
    else pyInt (e.base_heal * e.heal_multiplier)
  if isAlly then
    match target with
    | none => .error "AttributeError: NoneType has no attribute max_health"
    | some t =>
      .ok ⟨hero, some (healOn t),
        { res with effects := res.effects ++
            [{ type := "heal", amount := (healAmt t : ℚ), target := t.name }] }, rng⟩
  else
    .ok ⟨healOn hero, target,
      { res with effects := res.effects ++
          [{ type := "heal", amount := (healAmt hero : ℚ), target := hero.name }] }, rng⟩

/-- `SkillProcessor._process_custom_buff`: apply a buff (via the status
manager) to the resolved target (self unless `single_ally`). -/
def processCustomBuff (hero : Hero) (e : CustomEffect) (target : Option Hero)
    (res : SkillResult) (rng : List ℚ) : Except String ProcOut :=
  let dur := e.duration.getD 0
  let isPct := e.is_percentage.getD true
  let res := { res with effects := res.effects ++
    [{ type := "buff", subtype := e.buff_type, amount := e.value, duration := dur }] }
  if e.target_type = "single_ally" then
    match target with
    | none => .error "AttributeError: NoneType passed to apply_buff_effect"
    | some t => .ok ⟨hero, some (applyBuffEffect t e.buff_type e.value dur isPct), res, rng⟩
  else
    .ok ⟨applyBuffEffect hero e.buff_type e.value dur isPct, target, res, rng⟩

/-- `SkillProcessor._process_custom_debuff`: apply a debuff to the target
(no-op without a target). -/
def processCustomDebuff (hero : Hero) (e : CustomEffect) (target : Option Hero)
    (res : SkillResult) (rng : List ℚ) : ProcOut :=
  match target with
  | none => ⟨hero, target, res, rng⟩
  | some t =>
    let dur := e.duration.getD 0
    ⟨hero, some (applyDebuffEffect t e.debuff_type e.value dur (e.is_percentage.getD true)),
     { res with effects := res.effects ++
        [{ type := "debuff", subtype := e.debuff_type, amount := e.value, duration := dur }] },
     rng⟩

/-- `SkillProcessor._process_custom_control`: apply a control status to the
target (no-op without a target). -/
def processCustomControl (hero : Hero) (e : CustomEffect) (target : Option Hero)
    (res : SkillResult) (rng : List ℚ) : ProcOut :=
  match target with
  | none => ⟨hero, target, res, rng⟩
  | some t =>
    let dur := e.duration.getD 2
    ⟨hero, some (applyStatusEffect t { type := e.control_type, duration := dur }),
     { res with effects := res.effects ++
        [{ type := "control", subtype := e.control_type, duration := dur, target := t.name }] },
     rng⟩

/-- `SkillProcessor._process_custom_shield`: grant a shield to the resolved
target (self unless `single_ally`); percentage shields against max health.
Flat authored shield amounts are integral game data, so the conversion to
`Int` is exact. -/
def processCustomShield (hero : Hero) (e : CustomEffect) (target : Option Hero)
    (res : SkillResult) (rng : List ℚ) : Except String ProcOut :=
  let dur := e.duration.getD 0
  let amtOn : Hero → Int := fun ht =>
    if e.is_percentage.getD false then pyInt ((ht.max_health : ℚ) * e.shield_amount)
    else pyInt e.shield_amount
  if e.target_type = "single_ally" then
    match target with
    | none => .error "AttributeError: NoneType passed to apply_shield_effect"
    | some t =>
      .ok ⟨hero, some (applyShieldEffect t (amtOn t) dur),
        { res with effects := res.effects ++
            [{ type := "shield", amount := (amtOn t : ℚ), duration := dur, target := t.name }] },
        rng⟩
  else
    .ok ⟨applyShieldEffect hero (amtOn hero) dur, target,
      { res with effects := res.effects ++
          [{ type := "shield", amount := (amtOn hero : ℚ), duration := dur, target := hero.name }] },
      rng⟩

/-- `SkillProcessor._process_custom_status`: apply a generic status to the
resolved target (the enemy only for `single_enemy`). -/
def processCustomStatus (hero : Hero) (e : CustomEffect) (target : Option Hero)
    (res : SkillResult) (rng : List ℚ) : Except String ProcOut :=
  let dur := e.duration.getD 0
  let eff : StatusEffect := { type := e.status_type, duration := dur, amount := e.value }
  let res := { res with effects := res.effects ++
    [{ type := "status", subtype := e.status_type, amount := e.value, duration := dur }] }
  if e.target_type = "single_enemy" then
    match target with
    | none => .error "AttributeError: NoneType passed to apply_status_effect"
    | some t => .ok ⟨hero, some (applyStatusEffect t eff), res, rng⟩
  else
    .ok ⟨applyStatusEffect hero eff, target, res, rng⟩

/-- `SkillProcessor._process_custom_effect`: draw against the effect's
trigger probability, then dispatch on the effect type (unknown types are
skipped). -/
def processCustomEffect (hero : Hero) (e : CustomEffect) (target : Option Hero)
    (res : SkillResult) (rng : List ℚ) : Except String ProcOut :=
  let d := draw rng
  let rng := d.2
  if d.1 > e.probability then .ok ⟨hero, target, res, rng⟩
  else if e.type = "damage" then .ok (processCustomDamage hero e target res rng)
  else if e.type = "heal" then processCustomHeal hero e target res rng
  else if e.type = "buff" then processCustomBuff hero e target res rng
  else if e.type = "debuff" then .ok (processCustomDebuff hero e target res rng)
  else if e.type = "control" then .ok (processCustomControl hero e target res rng)
  else if e.type = "shield" then processCustomShield hero e target res rng
  else if e.type = "status" then processCustomStatus hero e target res rng
  else .ok ⟨hero, target, res, rng⟩

/-- `SkillProcessor._process_custom_skill`: fail when the caster is
controlled, otherwise process every authored effect in order. -/
def processCustomSkill (hero : Hero) (skill : Skill) (target : Option Hero)
    (res : SkillResult) (rng : List ℚ) : Except String ProcOut :=
  if hero.is_frozen ∨ hero.is_stunned ∨ hero.is_paralyzed then
    let ctype := if hero.is_frozen then "冰冻" else if hero.is_stunned then "眩晕" else "麻痹"
    .ok ⟨hero, target, { success := false, message := "处于" ++ ctype ++ "状态" }, rng⟩
  else
    skill.effects.foldlM
      (fun (s : ProcOut) e => processCustomEffect s.hero e s.target s.result s.rng)
      (⟨hero, target, res, rng⟩ : ProcOut)

/-- `SkillProcessor._process_eternal_night` (永夜终焉): true damage equal to
`int(target.max_health * coefficient)` (bypassing defense but shield-first),
then a 70% chance of a 2-turn freeze (replacing any existing freeze). -/
def eternalNight (hero : Hero) (skill : Skill) (target : Option Hero)
    (res : SkillResult) (rng : List ℚ) : ProcOut :=
  if hero.is_frozen ∨ hero.is_stunned then
    let ctype := if hero.is_frozen then "冰冻" else "眩晕"
    ⟨hero, target, { success := false, message := "处于" ++ ctype ++ "状态" }, rng⟩
  else
    match target with
    | none => ⟨hero, target, res, rng⟩
    | some t =>
      let coeff := lookupLevel skill.level_values hero.level (1/5)
      let true_damage := pyInt ((t.max_health : ℚ) * coeff)
      let p :=
        if t.shield_amount > 0 then
          let absorbed := min true_damage t.shield_amount
          ({ t with shield_amount := t.shield_amount - absorbed }, true_damage - absorbed)
        else (t, true_damage)
      let q :=
        if p.2 > 0 then
          let td := takeDamage p.1 p.2
          (td.1, if td.2.passive_triggered then [passiveTriggerDesc td.2] else [])
        else (p.1, [])
      let t := q.1
      let res := { res with effects := res.effects ++ q.2 }
      let d := draw rng
      let fr : Hero × SkillResult :=
        if d.1 < 7/10 then
          let t := { t with
            status_effects := (t.status_effects.filter (fun e => e.type ≠ "freeze")) ++
              [{ type := "freeze", duration := 2 }],
            is_frozen := true }
          (t, { res with effects := res.effects ++
            [{ type := "freeze", duration := 2, target := t.name }] })
        else
          (t, { res with effects := res.effects ++
            [{ type := "resist", subtype := "freeze", target := t.name }] })
      ⟨hero, some fr.1,
       { fr.2 with effects := fr.2.effects ++
          [{ type := "true_damage", damage := true_damage, target := t.name }] },
       d.2⟩

/-- `SkillProcessor._process_destruction_reforge` (毁灭重铸): sacrifice 30% of
current health (keeping at least 1), deal `int(sacrifice * coefficient)`
damage through `take_damage`, then force a 5-turn taunt on the target. -/
def destructionReforge (hero : Hero) (skill : Skill) (target : Option Hero)
    (res : SkillResult) (rng : List ℚ) : ProcOut :=
  if hero.is_frozen ∨ hero.is_stunned then
    let ctype := if hero.is_frozen then "冰冻" else "眩晕"
    ⟨hero, target, { success := false, message := "处于" ++ ctype ++ "状态" }, rng⟩
  else
    match target with
    | none => ⟨hero, target, res, rng⟩
    | some t =>
      let sacrifice := pyInt ((hero.health : ℚ) * (3/10))
      let hero := { hero with health := max 1 (hero.health - sacrifice) }
      let coeff : ℚ :=
        if skill.level = 1 then 2/5 else if skill.level = 2 then 1/2
        else if skill.level = 3 then 3/5 else if skill.level = 4 then 7/10
        else if skill.level = 5 then 4/5 else 2/5
      let damage := pyInt ((sacrifice : ℚ) * coeff)
      let td := takeDamage t damage
      let t := applyStatusEffect td.1 { type := "taunt", duration := 5 }
      ⟨hero, some t,
       { res with effects := res.effects ++
          [{ type := "sacrifice", amount := (sacrifice : ℚ), target := hero.name },
           { type := "attack", damage := damage, target := t.name, is_crit := false },
           { type := "control", subtype := "taunt", duration := 5, target := t.name }] },
       rng⟩

/-- `SkillProcessor._process_overload_penetration` (超载穿透弹): level-indexed
base damage through the mitigation formula, shield-first application through
`take_damage`, then a 30% chance of a 2-turn paralyze (else a resist log). -/
def overloadPenetration (hero : Hero) (skill : Skill) (target : Option Hero)
    (res : SkillResult) (rng : List ℚ) : ProcOut :=
  if hero.is_frozen ∨ hero.is_stunned ∨ hero.is_paralyzed then
    let ctype := if hero.is_frozen then "冰冻" else if hero.is_stunned then "眩晕" else "麻痹"
    ⟨hero, target, { success := false, message := "处于" ++ ctype ++ "状态" }, rng⟩
  else
    match target with
    | none => ⟨hero, target, res, rng⟩
    | some t =>
      let base := lookupLevel skill.level_values hero.level 400
      let d := draw rng
      let pd := processDamage base t.defense hero.crit_rate hero.crit_damage t.level d.1
      let final_damage := pd.1
      let p :=
        if t.shield_amount > 0 then
          let absorbed := min final_damage t.shield_amount
          ({ t with shield_amount := t.shield_amount - absorbed }, final_damage - absorbed)
        else (t, final_damage)
      let q :=
        if p.2 > 0 then
          let td := takeDamage p.1 p.2
          (td.1, if td.2.passive_triggered ∧ td.2.triggered_passive = "unyielding_will"
                 then [passiveTriggerDesc td.2] else [])
        else (p.1, [])
      let t := q.1
      let res := { res with effects := res.effects ++ q.2 }
      let d2 := draw d.2
      let pr : Hero × SkillResult :=
        if d2.1 < 3/10 then
          (applyStatusEffect t { type := "paralyze", duration := 2 },
           { res with effects := res.effects ++
              [{ type := "control", subtype := "paralyze", duration := 2, target := t.name }] })
        else
          (t, { res with effects := res.effects ++
              [{ type := "resist", subtype := "paralyze", target := t.name }] })
      ⟨hero, some pr.1,
       { pr.2 with effects := pr.2.effects ++
          [{ type := "attack", damage := final_damage, is_crit := pd.2, target := t.name }] },
       d2.2⟩

/-- `SkillProcessor._process_skull_smash` (碎颅猛击): level-indexed base damage
through the mitigation formula and the role/rarity table, direct shield-first
application, then a 20% defense shred for 5 turns recording the pre-shred
defense for exact restoration. -/
def skullSmash (hero : Hero) (skill : Skill) (target : Option Hero)
    (res : SkillResult) (rng : List ℚ) : ProcOut :=
  if hero.is_frozen ∨ hero.is_stunned then
    let ctype := if hero.is_frozen then "冰冻" else "眩晕"
    ⟨hero, target, { success := false, message := "处于" ++ ctype ++ "状态" }, rng⟩
  else
    match target with
    | none => ⟨hero, target, res, rng⟩
    | some t =>
      let base : ℚ :=
        if skill.level ≥ 5 then 500 else if skill.level ≥ 4 then 450
        else if skill.level ≥ 3 then 400 else if skill.level ≥ 2 then 350 else 300
      let d := draw rng
      let pd := processDamage base t.defense hero.crit_rate hero.crit_damage t.level d.1
      let damage := spJobCounterDamage hero.role t.role pd.1 hero.rank t.rank
      let p :=
        if t.shield_amount > 0 then
          let absorbed := min damage t.shield_amount
          ({ t with shield_amount := t.shield_amount - absorbed }, damage - absorbed)
        else (t, damage)
      let t := p.1
      let t := if p.2 > 0 then { t with health := max 0 (t.health - p.2) } else t
      let armor_reduction := pyInt ((t.defense : ℚ) * (1/5))
      let original_defense := t.defense
      let t := { t with defense := max 0 (t.defense - armor_reduction) }
      let t := applyStatusEffect t
        { type := "armor_reduction", duration := 5, amount := (armor_reduction : ℚ),
          has_original_defense := true, original_defense := original_defense }
      ⟨hero, some t,
       { res with effects := res.effects ++
          [{ type := "attack", damage := damage, is_crit := pd.2, target := t.name },
           { type := "debuff", subtype := "armor_reduction",
             amount := (armor_reduction : ℚ), duration := 5, target := t.name }] },
       d.2⟩

/-- `SkillProcessor._process_shield_defense` (举盾防御): level-indexed flat
self-shield (500..2500) for 4 turns; fails when frozen or stunned. -/
def shieldDefense (hero : Hero) (skill : Skill) (target : Option Hero)
    (res : SkillResult) (rng : List ℚ) : ProcOut :=
  if hero.is_frozen ∨ hero.is_stunned then
    let ctype := if hero.is_frozen then "冰冻" else "眩晕"
    ⟨hero, target, { success := false, message := "处于" ++ ctype ++ "状态" }, rng⟩
  else
    let shield_value : Int :=
      if skill.level = 1 then 500 else if skill.level = 2 then 1000
      else if skill.level = 3 then 1500 else if skill.level = 4 then 2000
      else if skill.level = 5 then 2500 else 500
    let hero := { hero with shield_amount := shield_value, max_shield := shield_value }
    let hero := applyStatusEffect hero
      { type := "shield", duration := 4, amount := (shield_value : ℚ) }
    ⟨hero, target,
     { res with effects := res.effects ++
        [{ type := "buff", subtype := "shield", amount := (shield_value : ℚ),
           duration := 4, target := hero.name }] },
     rng⟩

/-- `SkillProcessor._process_damage_skill` (generic type-1 active skill):
`int(attack * coefficient)` through the role/rarity table, then shield-first
direct application (no crit, no mitigation, no minimum floor). -/
def damageSkill (hero : Hero) (target : Option Hero) (coeff : ℚ)
    (res : SkillResult) (rng : List ℚ) : ProcOut :=
  match target with
  | none => ⟨hero, target, res, rng⟩
  | some t =>
    let damage := pyInt ((hero.attack : ℚ) * coeff)
    let damage := spJobCounterDamage hero.role t.role damage hero.rank t.rank
    if damage > 0 then
      let p :=
        if t.shield_amount > 0 then
          let absorbed := min damage t.shield_amount
          ({ t with shield_amount := t.shield_amount - absorbed }, damage - absorbed)
        else (t, damage)
      let t := p.1
      let t := if p.2 > 0 then { t with health := max 0 (t.health - p.2) } else t
      ⟨hero, some t,
       { res with effects := res.effects ++
          [{ type := "attack", damage := damage, is_crit := false }] },
       rng⟩
    else ⟨hero, some t, res, rng⟩

/-- `SkillProcessor._process_control_skill`: only effective when the skill's
`damage_type` codes include 2 or 3; logs a `2 * coefficient`-turn stun effect
descriptor for the scheduler (no direct state mutation here). -/
def controlSkill (hero : Hero) (skill : Skill) (target : Option Hero) (coeff : ℚ)
    (res : SkillResult) (rng : List ℚ) : ProcOut :=
  let codes := parseDamageCodes skill.damageTypeCode
  if codes.contains 2 ∨ codes.contains 3 then
    match target with
    | none => ⟨hero, target, res, rng⟩
    | some t =>
      let dur := pyInt (2 * coeff)
      ⟨hero, some t,
       { res with effects := res.effects ++
          [{ type := "control", subtype := "stun", duration := dur, target := t.name }] },
       rng⟩
  else ⟨hero, target, res, rng⟩

/-- `SkillProcessor._process_buff_skill`: keyword dispatch on the description
(defense / crit / default attack); mutates the caster's stat directly and
permanently (no status effect is recorded). -/
def buffSkill (hero : Hero) (skill : Skill) (coeff : ℚ)
    (res : SkillResult) (rng : List ℚ) : ProcOut :=
  let desc := skill.description.toLower
  let p :=
    if strContains desc "防御" ∨ strContains desc "防御值" then
      let amount := pyInt ((hero.defense : ℚ) * coeff)
      ({ hero with defense := hero.defense + amount }, "defense_boost", (amount : ℚ))
    else if strContains desc "暴击" ∨ strContains desc "概率" then
      ({ hero with crit_rate := hero.crit_rate + coeff }, "crit_boost", coeff)
    else
      let amount := pyInt ((hero.attack : ℚ) * coeff)
      ({ hero with attack := hero.attack + amount }, "attack_boost", (amount : ℚ))
  ⟨p.1, none,
   { res with effects := res.effects ++
      [{ type := "buff", subtype := p.2.1, amount := p.2.2, target := hero.name }] },
   rng⟩

/-- `SkillProcessor._process_default_attack`: fall back to a basic attack. -/
def defaultAttack (hero : Hero) (target : Option Hero)
    (res : SkillResult) (rng : List ℚ) : ProcOut :=
  match target with
  | none => ⟨hero, target, res, rng⟩
  | some t =>
    let ar := attackTarget hero t rng
    ⟨hero, some ar.1,
     { res with effects := res.effects ++
        [{ type := "attack", damage := ar.2.1.damage, is_crit := ar.2.1.is_crit,
           target := t.name }] },
     ar.2.2⟩

/-- `SkillProcessor.process_skill`: dispatch — authored custom skills first,
then the five named special skills (by substring match on the name), then
the usage-type / description-keyword classification. -/
def processSkill (hero : Hero) (skill : Skill) (target : Option Hero)
    (rng : List ℚ) : Except String ProcOut :=
  let res : SkillResult := { success := true, skill_name := skill.name }
  if skill.has_effects then
    processCustomSkill hero skill target res rng
  else if strContains skill.name "永夜终焉" then .ok (eternalNight hero skill target res rng)
  else if strContains skill.name "毁灭重铸" then .ok (destructionReforge hero skill target res rng)
  else if strContains skill.name "超载穿透弹" then .ok (overloadPenetration hero skill target res rng)
  else if strContains skill.name "碎颅猛击" then .ok (skullSmash hero skill target res rng)
  else if strContains skill.name "举盾防御" then .ok (shieldDefense hero skill target res rng)
  else
    let coeff := getSkillValue hero skill
    let desc := skill.description.toLower
    let usage := getSkillUsageType skill.excelType
    if usage = "active" then
      if skill.excelType = "1" ∨ skill.excelType = "1.0" ∨
         ((strContains desc "攻击" ∨ strContains desc "伤害") ∧
          ¬(skill.excelType = "3" ∨ skill.excelType = "3.0")) then
        .ok (damageSkill hero target coeff res rng)
      else if skill.excelType = "2" ∨ skill.excelType = "2.0" ∨
              strContains desc "眩晕" ∨ strContains desc "冻结" ∨
              strContains desc "沉默" ∨ strContains desc "控制" then
        .ok (controlSkill hero skill target coeff res rng)
      else if skill.excelType = "3" ∨ skill.excelType = "3.0" ∨
              strContains desc "攻击提升" ∨ strContains desc "防御提升" ∨
              strContains desc "暴击提升" ∨ strContains desc "增益" then
        .ok (buffSkill hero skill coeff res rng)
      else .ok (defaultAttack hero target res rng)
    else if usage = "passive" then
      let dts := parseDamageTypes skill.excelDamageType
      if dts.contains "control" ∨ dts.contains "buff" then
        if dts.contains "control" then .ok (controlSkill hero skill target coeff res rng)
        else .ok (buffSkill hero skill coeff res rng)
      else .ok ⟨hero, target, res, rng⟩
    else .ok (defaultAttack hero target res rng)

/-- `Hero.use_skill`: fail fast when controlled, on an invalid index, or on
cooldown; otherwise start the cooldown and hand over to the processor. -/
def useSkill (h : Hero) (skill_index : Int) (target : Option Hero)
    (rng : List ℚ) : Except String ProcOut :=
  if h.is_frozen ∨ h.is_stunned ∨ h.is_paralyzed then
    let ctype := if h.is_frozen then "冻结" else if h.is_stunned then "眩晕" else "麻痹"
    .ok ⟨h, target,
      { success := false, message := h.name ++ " 处于" ++ ctype ++ "状态，无法使用技能" }, rng⟩
  else if skill_index < 0 ∨ skill_index ≥ (h.skills.length : Int) then
    .ok ⟨h, target, { success := false, message := "无效的技能索引" }, rng⟩
  else
    match h.skills.get? skill_index.toNat with
    | none => .ok ⟨h, target, { success := false, message := "无效的技能索引" }, rng⟩
    | some skill =>
      if skill.current_cooldown > 0 then
        .ok ⟨h, target,
          { success := false,
            message := "技能冷却中，剩余" ++ toString skill.current_cooldown ++ "回合" }, rng⟩
      else
        let skill := if skill.cooldown > 0 then { skill with current_cooldown := skill.cooldown }
                     else skill
        let h := { h with skills := h.skills.set skill_index.toNat skill }
        processSkill h skill target rng

/-- `Hero.is_alive`. -/
def isAlive (h : Hero) : Bool := h.health > 0

/-- `Hero.reset_cooldowns`. -/
def resetCooldowns (h : Hero) : Hero :=
  { h with skills := h.skills.map (fun s => { s with current_cooldown := 0 }) }

/-- The cooldown decay in `BattleSimulator._end_of_turn`: every skill with a
positive cooldown counter loses 1. -/
def tickCooldowns (h : Hero) : Hero :=
  { h with skills := h.skills.map (fun s =>
      if s.current_cooldown > 0 then { s with current_cooldown := s.current_cooldown - 1 }
      else s) }

/-- The forced ending at the turn cap in `BattleSimulator.run_battle`: the
strictly lower-health combatant is forced to 0; on a tie one draw decides
(below 0.5 the first combatant is forced to 0, otherwise the second). -/
def forceTurnCapEnd (h1 h2 : Hero) (rng : List ℚ) : Hero × Hero × List ℚ :=
  if h1.health < h2.health then ({ h1 with health := 0 }, h2, rng)
  else if h2.health < h1.health then (h1, { h2 with health := 0 }, rng)
  else
    let d := draw rng
    if d.1 < 1/2 then ({ h1 with health := 0 }, h2, d.2)
    else (h1, { h2 with health := 0 }, d.2)

/-- One entry of `BattleSimulator.battle_log` (per-turn health snapshot). -/
structure LogEntry where
  turn : Int
  hero1_health : Int
  hero2_health : Int
deriving Repr, DecidableEq

/-- The mutable state of `BattleSimulator`. -/
structure Simulator where
  hero1 : Option Hero := none
  hero2 : Option Hero := none
  current_turn : Int := 0
  battle_log : List LogEntry := []
deriving Repr, DecidableEq

/-- The dict returned by `BattleSimulator.run_battle` (`detailed_log` is
presentation-only and omitted; absent keys are `none`). -/
structure BattleOutcome where
  winner : Option String
  loser : Option String := none
  turns : Int := 0
  winner_health : Option Int := none
  log : List LogEntry := []
deriving Repr, DecidableEq

/-- The per-turn action phase of the battle loop (action selection and
execution for both combatants), abstracted as a parameter: it reads and
writes both combatants and consumes RNG draws. -/
def ActionPhase : Type := Hero → Hero → List ℚ → Hero × Hero × List ℚ

/-- The `while` loop of `BattleSimulator.run_battle`: status tick for both,
the action phase, cooldown decay, the per-turn log entry, and the turn-cap
check with forced ending.  `fuel` bounds the recursion; the loop itself
terminates within `max_turns` iterations because the turn counter increases
every iteration. -/
def runBattleLoop (phase : ActionPhase) (maxTurns : Int) :
    Nat → Int → Hero → Hero → List LogEntry → List ℚ →
    Hero × Hero × Int × List LogEntry × List ℚ
  | 0, turn, h1, h2, log, rng => (h1, h2, turn, log, rng)
  | fuel + 1, turn, h1, h2, log, rng =>
    if h1.health > 0 ∧ h2.health > 0 then
      let turn := turn + 1
      let h1 := updateHeroStatus h1
      let h2 := updateHeroStatus h2
      let p := phase h1 h2 rng
      let h1 := tickCooldowns p.1
      let h2 := tickCooldowns p.2.1
      let rng := p.2.2
      let log := log ++ [⟨turn, h1.health, h2.health⟩]
      if turn ≥ maxTurns then
        let f := forceTurnCapEnd h1 h2 rng
        (f.1, f.2.1, turn, log, f.2.2)
      else runBattleLoop phase maxTurns fuel turn h1 h2 log rng
    else (h1, h2, turn, log, rng)

/-- `BattleSimulator.run_battle`: with an empty combatant slot, return the
null outcome immediately without touching any state; otherwise reset
cooldowns and run the loop, then read off winner and loser. -/
def runBattle (phase : ActionPhase) (sim : Simulator) (maxTurns : Int)
    (rng : List ℚ) : Simulator × BattleOutcome :=
  match sim.hero1, sim.hero2 with
  | some h1, some h2 =>
    let h1 := resetCooldowns h1
    let h2 := resetCooldowns h2
    let r := runBattleLoop phase maxTurns (maxTurns.toNat + 1) sim.current_turn h1 h2
      sim.battle_log rng
    let h1 := r.1
    let h2 := r.2.1
    let turn := r.2.2.1
    let log := r.2.2.2.1
    let winner := if isAlive h1 then h1 else h2
    let loser := if isAlive h1 then h2 else h1
    ({ sim with hero1 := some h1, hero2 := some h2, current_turn := turn, battle_log := log },
     { winner := some winner.name, loser := some loser.name, turns := turn,
       winner_health := some winner.health, log := log })
  | _, _ => (sim, { winner := none, turns := 0, log := [] })

/-- A combatant with shield 50 and health 100 (the spec's worked example). -/
def exShieldHero : Hero :=
  { name := "盾例", health := 100, max_health := 100, shield_amount := 50, max_shield := 50 }

/-- A plain example target. -/
def exTarget : Hero := { name := "目标" }

/-- A frozen example combatant. -/
def exFrozenHero : Hero := { name := "冻例", is_frozen := true }

/-- An example combatant for buff stacking. -/
def exBuffHero : Hero := { name := "增例", attack := 100 }

/-- A DPS attacker with attack 50 and no crit, for the damage-path
comparison. -/
def exAttacker : Hero :=
  { name := "攻例", attack := 50, crit_rate := 0, role := "DPS", rank := "R" }

/-- An undefended SNIP defender. -/
def exDefender : Hero :=
  { name := "守例", defense := 0, level := 1, role := "SNIP", rank := "R" }

/-- An authored damage effect whose base damage equals `exAttacker`'s attack. -/
def exDamageEffect : CustomEffect :=
  { type := "damage", base_damage := 50, damage_multiplier := 1 }

/-- A DPS attacker with attack 200 (mitigated damage above the floor). -/
def exStrongAttacker : Hero :=
  { name := "强攻", attack := 200, crit_rate := 0, role := "DPS", rank := "R" }

/-- Turn-cap examples: lower health, higher health, tied health. -/
def exLow : Hero := { name := "低", health := 30 }

/-- See `exLow`. -/
def exHigh : Hero := { name := "高", health := 40 }

/-- See `exLow`. -/
def exTie : Hero := { name := "平", health := 40 }

/-- A trivial action phase (used only to instantiate `runBattle`). -/
def exPhase : ActionPhase := fun a b r => (a, b, r)

/-- An authored self-heal effect (flat 50). -/
def exHealEffect : CustomEffect := { type := "heal", base_heal := 50, heal_multiplier := 1 }

/-- The processor output of applying `exHealEffect` as a self-heal. -/
def exHealOut : ProcOut :=
  match processCustomHeal exBuffHero exHealEffect none { success := true } [] with
  | .ok o => o
  | .error _ => ⟨exBuffHero, none, { success := false }, []⟩

/-- A plain named skill record. -/
def exPlainSkill : Skill := { name := "技" }

/-- A combatant carrying an untriggered unyielding-will passive at 10 health. -/
def exUWHero : Hero :=
  { name := "不屈", health := 10, max_health := 1000, attack := 100,
    level := 1, uw := some ⟨false, 0, 0⟩ }

/-- A combatant whose unyielding will has fired: +60 attack for 10 turns. -/
def exUWRevived : Hero := { name := "不屈二", attack := 160, uw := some ⟨true, 10, 60⟩ }

/-- Extract the caster from a successful skill call (default on error). -/
def okHero (x : Except String ProcOut) (dflt : Hero) : Hero :=
  match x with
  | .ok o => o.hero
  | .error _ => dflt

/-- Extract the success flag from a skill call (false on error). -/
def okSuccess (x : Except String ProcOut) : Bool :=
  match x with
  | .ok o => o.result.success
  | .error _ => false

/-- A no-op authored skill with cooldown 3. -/
def exCdSkill : Skill := { name := "冷却技", cooldown := 3, has_effects := true }

/-- A combatant holding only `exCdSkill`. -/
def exCdHero : Hero := { name := "冷", skills := [exCdSkill] }

lemma pyInt_eq_floor (q : ℚ) (hq : 0 ≤ q) : pyInt q = ⌊q⌋ := by
  unfold pyInt
  rw [if_neg (not_lt.mpr hq)]

lemma pyInt_nonneg (q : ℚ) (hq : 0 ≤ q) : 0 ≤ pyInt q := by
  rw [pyInt_eq_floor q hq]
  exact Int.floor_nonneg.mpr hq



lemma takeDamage_shield_amount (h : Hero) (damage : Int)
    (hsh : 0 ≤ h.shield_amount) (hd : 0 ≤ damage) :
    (takeDamage h damage).1.shield_amount = h.shield_amount - min damage h.shield_amount := by
  simp only [takeDamage]
  split
  · split
    · split
      · split
        · split <;> simp
        · simp
      · simp
    · simp
  · next hns =>
    have h0 : h.shield_amount = 0 := by omega
    have hm : min damage h.shield_amount = 0 := by omega
    split
    · split
      · split
        · split <;> simp <;> omega
        · simp; omega
      · simp; omega
    · simp; omega


lemma takeDamage_preserves (h : Hero) (damage : Int) :
    (takeDamage h damage).1.max_health = h.max_health ∧
    (takeDamage h damage).1.max_shield = h.max_shield ∧
    (takeDamage h damage).1.level = h.level ∧
    (takeDamage h damage).1.status_effects = h.status_effects ∧
    (takeDamage h damage).1.name = h.name := by
  unfold takeDamage
  dsimp only
  split <;> split <;>
    first
    | (split
       · split
         · split <;> simp
         · simp
       · simp)
    | simp

lemma takeDamage_shield (h : Hero) (damage : Int)
    (hsh : 0 ≤ h.shield_amount) (hd : 0 ≤ damage) :
    (takeDamage h damage).1.shield_amount = h.shield_amount - min damage h.shield_amount := by
  unfold takeDamage
  dsimp only
  split
  · split
    · first
      | (split
         · split
           · split <;> simp
           · simp
         · simp)
      | simp
    · simp
  · next hns =>
    have h0 : h.shield_amount = 0 := by omega
    split <;>
      first
      | (split
         · split
           · split <;> simp <;> omega
           · simp <;> omega
         · simp <;> omega)
      | (simp <;> omega)


lemma takeDamage_health_no_intercept (h : Hero) (damage : Int)
    (hsh : 0 ≤ h.shield_amount) (hd : 0 ≤ damage) (hhl : 0 ≤ h.health)
    (hni : uwIntercepts h (damage - min damage h.shield_amount) = false) :
    (takeDamage h damage).1.health = max 0 (h.health - (damage - min damage h.shield_amount)) := by
  unfold takeDamage
  dsimp only
  split
  · next hs =>
    dsimp only
    split
    · next hrem =>
      split
      · next hg =>
        split
        · next st heq =>
          split
          · next hrv =>
            exfalso
            have htrue : uwIntercepts h (damage - min damage h.shield_amount) = true := by
              simp only [uwIntercepts, heq, Bool.and_eq_true, decide_eq_true_eq]
              exact ⟨⟨⟨hrem, hg.1⟩, by omega⟩, by simpa using hrv⟩
            rw [hni] at htrue
            exact Bool.false_ne_true htrue
          · simp <;> omega
        · simp <;> omega
      · simp
    · next hrem =>
      simp <;> omega
  · next hns =>
    dsimp only
    have h0 : h.shield_amount = 0 := by omega
    have hm : min damage h.shield_amount = 0 := by omega
    split
    · next hrem =>
      split
      · next hg =>
        split
        · next st heq =>
          split
          · next hrv =>
            exfalso
            have htrue : uwIntercepts h (damage - min damage h.shield_amount) = true := by
              simp only [uwIntercepts, heq, Bool.and_eq_true, decide_eq_true_eq]
              exact ⟨⟨⟨by omega, hg.1⟩, by omega⟩, by simpa using hrv⟩
            rw [hni] at htrue
            exact Bool.false_ne_true htrue
          · simp <;> omega
        · simp <;> omega
      · simp <;> omega
    · next hrem =>
      simp <;> omega

lemma pyInt_mul_frac_le (n : Int) (q : ℚ) (hn : 0 ≤ n) (hq0 : 0 ≤ q) (hq1 : q ≤ 1) :
    0 ≤ pyInt ((n : ℚ) * q) ∧ pyInt ((n : ℚ) * q) ≤ n := by
  have hnn : (0 : ℚ) ≤ (n : ℚ) * q := by positivity
  rw [pyInt_eq_floor _ hnn]
  constructor
  · exact Int.floor_nonneg.mpr hnn
  · calc ⌊(n : ℚ) * q⌋ ≤ ⌊(n : ℚ)⌋ := by
          apply Int.floor_le_floor
          exact mul_le_of_le_one_right (by exact_mod_cast hn) hq1
      _ = n := Int.floor_intCast n

lemma takeDamage_intercept (h : Hero) (damage : Int) (st : UWState)
    (huw : h.uw = some st) (hrv : st.revived = false)
    (hsh : 0 ≤ h.shield_amount) (hd : 0 ≤ damage)
    (hrem : 0 < damage - min damage h.shield_amount)
    (halive : 0 < h.health)
    (hlethal : h.health ≤ damage - min damage h.shield_amount) :
    (takeDamage h damage).1.health = pyInt ((h.max_health : ℚ) * (2/5)) ∧
    (takeDamage h damage).1.attack =
      h.attack + pyInt ((h.attack : ℚ) * (11/20 + (h.level : ℚ) * (1/20))) ∧
    (takeDamage h damage).1.uw =
      some ⟨true, 10, pyInt ((h.attack : ℚ) * (11/20 + (h.level : ℚ) * (1/20)))⟩ ∧
    (takeDamage h damage).2.passive_triggered = true ∧
    (takeDamage h damage).2.revive_health = pyInt ((h.max_health : ℚ) * (2/5)) := by
  unfold takeDamage
  dsimp only
  by_cases hs : h.shield_amount > 0
  · rw [if_pos hs]
    dsimp only
    rw [if_pos hrem]
    dsimp only
    rw [if_pos (show h.health > 0 ∧
        max 0 (h.health - (damage - min damage h.shield_amount)) = 0 from ⟨halive, by omega⟩)]
    simp only [huw]
    try dsimp only
    rw [if_pos (show (!st.revived) = true by simp [hrv])]
    simp
  · rw [if_neg hs]
    dsimp only
    have h0 : h.shield_amount = 0 := by omega
    have hm : min damage h.shield_amount = 0 := by omega
    rw [if_pos (show damage > 0 by omega)]
    dsimp only
    rw [if_pos (show h.health > 0 ∧ max 0 (h.health - damage) = 0 from ⟨halive, by omega⟩)]
    simp only [huw]
    try dsimp only
    rw [if_pos (show (!st.revived) = true by simp [hrv])]
    simp

lemma takeDamage_no_retrigger (h : Hero) (damage : Int) (st : UWState)
    (huw : h.uw = some st) (hrv : st.revived = true)
    (hsh : 0 ≤ h.shield_amount) (hd : 0 ≤ damage) (hhl : 0 ≤ h.health) :
    (takeDamage h damage).1.health = max 0 (h.health - (damage - min damage h.shield_amount)) ∧
    (takeDamage h damage).2.passive_triggered = false := by
  have hni : uwIntercepts h (damage - min damage h.shield_amount) = false := by
    simp [uwIntercepts, huw, hrv]
  refine ⟨takeDamage_health_no_intercept h damage hsh hd hhl hni, ?_⟩
  unfold takeDamage
  dsimp only
  by_cases hs : h.shield_amount > 0
  · rw [if_pos hs]
    dsimp only
    by_cases hrem : damage - min damage h.shield_amount > 0
    · rw [if_pos hrem]
      dsimp only
      by_cases hg : h.health > 0 ∧ max 0 (h.health - (damage - min damage h.shield_amount)) = 0
      · rw [if_pos hg]
        simp only [huw]
        try dsimp only
        rw [if_neg (show ¬ ((!st.revived) = true) by simp [hrv])]
        try simp
      · rw [if_neg hg]
        try simp
    · rw [if_neg hrem]
      try simp
  · rw [if_neg hs]
    dsimp only
    by_cases hrem : damage > 0
    · rw [if_pos hrem]
      dsimp only
      by_cases hg : h.health > 0 ∧ max 0 (h.health - damage) = 0
      · rw [if_pos hg]
        simp only [huw]
        try dsimp only
        rw [if_neg (show ¬ ((!st.revived) = true) by simp [hrv])]
        try simp
      · rw [if_neg hg]
        try simp
    · rw [if_neg hrem]
      try simp

/-- The invariant of spec §3/§8: health within `[0, max_health]` and shield
within `[0, max_shield]`. -/
def statBounds (h : Hero) : Prop :=
  0 ≤ h.health ∧ h.health ≤ h.max_health ∧ 0 ≤ h.shield_amount ∧ h.shield_amount ≤ h.max_shield

lemma uwIntercepts_true_iff (h : Hero) (rem : Int) :
    uwIntercepts h rem = true ↔
      0 < rem ∧ 0 < h.health ∧ h.health ≤ rem ∧
        ∃ st, h.uw = some st ∧ st.revived = false := by
  unfold uwIntercepts
  cases huw : h.uw with
  | none => simp
  | some st =>
    simp only [Bool.and_eq_true, decide_eq_true_eq, Bool.not_eq_true']
    constructor
    · rintro ⟨⟨⟨h1, h2⟩, h3⟩, h4⟩
      exact ⟨h1, h2, by omega, st, rfl, h4⟩
    · rintro ⟨h1, h2, h3, st2, heq, hrv⟩
      injection heq with heq2
      subst heq2
      exact ⟨⟨⟨h1, h2⟩, by omega⟩, hrv⟩

lemma takeDamage_statBounds (h : Hero) (damage : Int) (hd : 0 ≤ damage)
    (hb : statBounds h) : statBounds (takeDamage h damage).1 := by
  obtain ⟨hh0, hhm, hs0, hsm⟩ := hb
  have hpre := takeDamage_preserves h damage
  have hsh := takeDamage_shield h damage hs0 hd
  refine ⟨?_, ?_, ?_, ?_⟩
  · by_cases hint : uwIntercepts h (damage - min damage h.shield_amount) = true
    · obtain ⟨hrem, halive, hlethal, st, huw, hrv⟩ := (uwIntercepts_true_iff _ _).mp hint
      have := takeDamage_intercept h damage st huw hrv hs0 hd hrem halive hlethal
      rw [this.1]
      exact (pyInt_mul_frac_le h.max_health (2/5) (by omega) (by norm_num) (by norm_num)).1
    · rw [takeDamage_health_no_intercept h damage hs0 hd hh0 (by simpa using hint)]
      omega
  · rw [hpre.1]
    by_cases hint : uwIntercepts h (damage - min damage h.shield_amount) = true
    · obtain ⟨hrem, halive, hlethal, st, huw, hrv⟩ := (uwIntercepts_true_iff _ _).mp hint
      have := takeDamage_intercept h damage st huw hrv hs0 hd hrem halive hlethal
      rw [this.1]
      exact (pyInt_mul_frac_le h.max_health (2/5) (by omega) (by norm_num) (by norm_num)).2
    · rw [takeDamage_health_no_intercept h damage hs0 hd hh0 (by simpa using hint)]
      omega
  · omega
  · rw [hsh, hpre.2.1]
    omega

/-- The recorded delta of a max-health buff (0 for every other effect). -/
def maxHealthBoost (e : StatusEffect) : Int :=
  if e.type = "buff" ∧ e.buff_type = "max_health" then e.boost_amount else 0

/-- Total recorded max-health buff delta in an effect list. -/
def sumMHB (es : List StatusEffect) : Int := (es.map maxHealthBoost).sum

lemma sumMHB_nil : sumMHB [] = 0 := rfl

lemma sumMHB_cons (e : StatusEffect) (es : List StatusEffect) :
    sumMHB (e :: es) = maxHealthBoost e + sumMHB es := by
  simp [sumMHB]

lemma sumMHB_nonneg (es : List StatusEffect)
    (hnn : ∀ e ∈ es, 0 ≤ maxHealthBoost e) : 0 ≤ sumMHB es := by
  induction es with
  | nil => simp [sumMHB]
  | cons e es ih =>
    rw [sumMHB_cons]
    have h1 := hnn e (List.mem_cons_self e es)
    have h2 := ih (fun e2 he2 => hnn e2 (List.mem_cons_of_mem e he2))
    omega

lemma tick_type (e : StatusEffect) : e.tick.type = e.type := rfl

lemma tick_duration (e : StatusEffect) : e.tick.duration = e.duration - 1 := rfl

lemma tick_buff_type (e : StatusEffect) : e.tick.buff_type = e.buff_type := rfl

lemma tick_debuff_type (e : StatusEffect) : e.tick.debuff_type = e.debuff_type := rfl

lemma tick_value (e : StatusEffect) : e.tick.value = e.value := rfl

lemma tick_boost_amount (e : StatusEffect) : e.tick.boost_amount = e.boost_amount := rfl

lemma tick_reduction_amount (e : StatusEffect) : e.tick.reduction_amount = e.reduction_amount := rfl

lemma tick_has_original_defense (e : StatusEffect) :
    e.tick.has_original_defense = e.has_original_defense := rfl

lemma tick_original_defense (e : StatusEffect) : e.tick.original_defense = e.original_defense := rfl

lemma removeBuffEffect_statBounds (h : Hero) (e : StatusEffect) (hb : statBounds h)
    (hle : e.buff_type = "max_health" → e.boost_amount ≤ h.max_health) :
    statBounds (removeBuffEffect h e) := by
  unfold removeBuffEffect
  split_ifs with b1 b2 b3 b4 b5
  · exact hb
  · exact hb
  · exact hb
  · exact hb
  · have := hle b5
    unfold statBounds at hb ⊢
    dsimp only
    omega
  · exact hb

lemma removeDebuffEffect_statBounds (h : Hero) (e : StatusEffect) (hb : statBounds h) :
    statBounds (removeDebuffEffect h e) := by
  unfold removeDebuffEffect
  split_ifs <;> exact hb

lemma removeBuffEffect_max_health (h : Hero) (e : StatusEffect) :
    (removeBuffEffect h e).max_health = h.max_health ∨
    ((removeBuffEffect h e).max_health = h.max_health - e.boost_amount ∧
     e.type = e.type ∧ e.buff_type = "max_health") := by
  unfold removeBuffEffect
  split_ifs with b1 b2 b3 b4 b5
  · exact Or.inl rfl
  · exact Or.inl rfl
  · exact Or.inl rfl
  · exact Or.inl rfl
  · exact Or.inr ⟨rfl, rfl, b5⟩
  · exact Or.inl rfl

lemma removeDebuffEffect_max_health (h : Hero) (e : StatusEffect) :
    (removeDebuffEffect h e).max_health = h.max_health := by
  unfold removeDebuffEffect
  split_ifs <;> rfl

lemma tickEffect_statBounds (h : Hero) (e : StatusEffect) (hb : statBounds h)
    (hle : maxHealthBoost e ≤ h.max_health) :
    statBounds (tickEffect h e).1 := by
  unfold tickEffect
  dsimp only
  split_ifs with c1 c2 c3 c4 c5 c6 c7 c8 c9 c10
  · exact hb
  · exact hb
  · exact hb
  · exact hb
  · exact hb
  · exact hb
  · exact hb
  · unfold statBounds at hb ⊢
    dsimp only
    omega
  · refine removeBuffEffect_statBounds h e.tick hb (fun hbt => ?_)
    have ht : e.type = "buff" := c9
    have hbt2 : e.buff_type = "max_health" := hbt
    have hmb : maxHealthBoost e = e.boost_amount := by simp [maxHealthBoost, ht, hbt2]
    have : (e.tick.boost_amount : Int) = e.boost_amount := rfl
    omega
  · exact removeDebuffEffect_statBounds h e.tick hb
  · exact hb

lemma tickEffect_max_health_bounds (h : Hero) (e : StatusEffect)
    (hbo : 0 ≤ maxHealthBoost e) :
    h.max_health - maxHealthBoost e ≤ (tickEffect h e).1.max_health ∧
    (tickEffect h e).1.max_health ≤ h.max_health := by
  unfold tickEffect
  dsimp only
  split_ifs with c1 c2 c3 c4 c5 c6 c7 c8 c9 c10
  · constructor <;> (dsimp only; omega)
  · constructor <;> (dsimp only; omega)
  · constructor <;> (dsimp only; omega)
  · constructor <;> (dsimp only; omega)
  · constructor <;> (dsimp only; omega)
  · constructor <;> (dsimp only; omega)
  · constructor <;> (dsimp only; omega)
  · constructor <;> (dsimp only; omega)
  · rcases removeBuffEffect_max_health h e.tick with hc | ⟨hc, _, hbt⟩
    · rw [hc]
      omega
    · have ht : e.type = "buff" := c9
      have hbt2 : e.buff_type = "max_health" := hbt
      have hmb : maxHealthBoost e = e.boost_amount := by simp [maxHealthBoost, ht, hbt2]
      have hq : (e.tick.boost_amount : Int) = e.boost_amount := rfl
      rw [hc, hq]
      omega
  · rw [removeDebuffEffect_max_health h e.tick]
    omega
  · constructor <;> (dsimp only; omega)

lemma updateFold_statBounds :
    ∀ (es : List StatusEffect) (h : Hero) (acc : List StatusEffect),
      statBounds h → (∀ e ∈ es, 0 ≤ maxHealthBoost e) → sumMHB es ≤ h.max_health →
      statBounds (es.foldl
        (fun (p : Hero × List StatusEffect) e =>
          let q := tickEffect p.1 e
          (q.1, match q.2 with
                | some e2 => p.2 ++ [e2]
                | none => p.2)) (h, acc)).1
  | [], h, acc, hb, _, _ => by simpa using hb
  | e :: es, h, acc, hb, hnn, hsum => by
    rw [List.foldl_cons]
    have hre : 0 ≤ sumMHB es :=
      sumMHB_nonneg es (fun e2 he2 => hnn e2 (List.mem_cons_of_mem e he2))
    have hbo : 0 ≤ maxHealthBoost e := hnn e (List.mem_cons_self e es)
    have hsum2 := sumMHB_cons e es
    have hle : maxHealthBoost e ≤ h.max_health := by omega
    have h1 := tickEffect_statBounds h e hb hle
    have h2 := tickEffect_max_health_bounds h e hbo
    exact updateFold_statBounds es (tickEffect h e).1 _ h1
      (fun e2 he2 => hnn e2 (List.mem_cons_of_mem e he2)) (by omega)

lemma updatePassiveStates_core_fields (h : Hero) :
    (updatePassiveStates h).health = h.health ∧
    (updatePassiveStates h).max_health = h.max_health ∧
    (updatePassiveStates h).shield_amount = h.shield_amount ∧
    (updatePassiveStates h).max_shield = h.max_shield := by
  unfold updatePassiveStates
  cases h.uw <;> dsimp only <;> first
    | (split_ifs <;> simp)
    | simp

lemma updateHeroStatus_statBounds (h : Hero) (hb : statBounds h)
    (hnn : ∀ e ∈ h.status_effects, 0 ≤ maxHealthBoost e)
    (hsum : sumMHB h.status_effects ≤ h.max_health) :
    statBounds (updateHeroStatus h) := by
  unfold updateHeroStatus
  have hf := updateFold_statBounds h.status_effects h [] hb hnn hsum
  have hp := updatePassiveStates_core_fields
    { (h.status_effects.foldl
        (fun (p : Hero × List StatusEffect) e =>
          let q := tickEffect p.1 e
          (q.1, match q.2 with
                | some e2 => p.2 ++ [e2]
                | none => p.2)) (h, [])).1 with
      status_effects := (h.status_effects.foldl
        (fun (p : Hero × List StatusEffect) e =>
          let q := tickEffect p.1 e
          (q.1, match q.2 with
                | some e2 => p.2 ++ [e2]
                | none => p.2)) (h, [])).2 }
  unfold statBounds at hf ⊢
  rw [hp.1, hp.2.1, hp.2.2.1, hp.2.2.2]
  dsimp only
  exact hf

lemma applyStatusEffect_core_fields (h : Hero) (e : StatusEffect) :
    (applyStatusEffect h e).health = h.health ∧
    (applyStatusEffect h e).max_health = h.max_health ∧
    (applyStatusEffect h e).shield_amount = h.shield_amount ∧
    (applyStatusEffect h e).max_shield = h.max_shield := by
  unfold applyStatusEffect
  dsimp only
  split_ifs <;> simp

lemma applyStatusEffect_statBounds (h : Hero) (e : StatusEffect) (hb : statBounds h) :
    statBounds (applyStatusEffect h e) := by
  have hf := applyStatusEffect_core_fields h e
  unfold statBounds at hb ⊢
  rw [hf.1, hf.2.1, hf.2.2.1, hf.2.2.2]
  exact hb

lemma applyBuffEffect_statBounds (h : Hero) (bt : String) (v : ℚ) (dur : Int) (pct : Bool)
    (hb : statBounds h) (hv : 0 ≤ v) :
    statBounds (applyBuffEffect h bt v dur pct) := by
  have hm0 : (0 : ℚ) ≤ (h.max_health : ℚ) := by
    have := hb.1
    have := hb.2.1
    exact_mod_cast by omega
  unfold applyBuffEffect
  dsimp only
  split_ifs with c1 cp1 c2 cp2 c3 c4 c5 cp5
  · exact hb
  · exact hb
  · exact hb
  · exact hb
  · exact hb
  · exact hb
  · have h1 := pyInt_nonneg ((h.max_health : ℚ) * v) (mul_nonneg hm0 hv)
    unfold statBounds at hb ⊢
    dsimp only
    omega
  · have h1 := pyInt_nonneg v hv
    unfold statBounds at hb ⊢
    dsimp only
    omega
  · exact hb

lemma destructionReforge_statBounds (hero t : Hero) (skill : Skill)
    (res : SkillResult) (rng : List ℚ)
    (hbh : statBounds hero) (hbt : statBounds t) (hmh : 1 ≤ hero.max_health) :
    statBounds (destructionReforge hero skill (some t) res rng).hero ∧
    ∀ t2, (destructionReforge hero skill (some t) res rng).target = some t2 →
      statBounds t2 := by
  unfold destructionReforge
  by_cases hc : hero.is_frozen = true ∨ hero.is_stunned = true
  · rw [if_pos hc]
    refine ⟨hbh, fun t2 ht2 => ?_⟩
    try dsimp only at ht2
    injection ht2 with ht2
    subst ht2
    exact hbt
  · rw [if_neg hc]
    dsimp only
    have hsac := pyInt_mul_frac_le hero.health (3/10) hbh.1 (by norm_num) (by norm_num)
    constructor
    · unfold statBounds at hbh ⊢
      dsimp only
      omega
    · intro t2 ht2
      try dsimp only at ht2
      injection ht2 with ht2
      have hcoeff : (0 : ℚ) ≤ (if skill.level = 1 then (2:ℚ)/5 else if skill.level = 2 then 1/2
          else if skill.level = 3 then 3/5 else if skill.level = 4 then 7/10
          else if skill.level = 5 then 4/5 else 2/5) := by
        split_ifs <;> norm_num
      have hdmg : 0 ≤ pyInt ((pyInt ((hero.health : ℚ) * (3/10)) : ℚ) *
          (if skill.level = 1 then (2:ℚ)/5 else if skill.level = 2 then 1/2
          else if skill.level = 3 then 3/5 else if skill.level = 4 then 7/10
          else if skill.level = 5 then 4/5 else 2/5)) := by
        apply pyInt_nonneg
        apply mul_nonneg _ hcoeff
        exact_mod_cast hsac.1
      have htd := takeDamage_statBounds t _ hdmg hbt
      have happ := applyStatusEffect_statBounds _
        ({ type := "taunt", duration := 5 } : StatusEffect) htd
      rw [← ht2]
      exact happ

lemma processCustomHeal_statBounds (hero : Hero) (e : CustomEffect) (target : Option Hero)
    (res : SkillResult) (rng : List ℚ) (out : ProcOut)
    (hbh : statBounds hero) (hbt : ∀ t2, target = some t2 → statBounds t2)
    (hb0 : 0 ≤ e.base_heal) (hm0 : 0 ≤ e.heal_multiplier)
    (hout : processCustomHeal hero e target res rng = .ok out) :
    statBounds out.hero ∧ ∀ t2, out.target = some t2 → statBounds t2 := by
  unfold processCustomHeal at hout
  dsimp only at hout
  by_cases ha : e.target_type = "single_ally"
  · rw [if_pos ha] at hout
    cases target with
    | none => exact absurd hout (by simp)
    | some t =>
      have hbt2 : statBounds t := hbt t rfl
      injection hout with hout
      subst hout
      dsimp only
      have hamt : 0 ≤ (if e.is_percentage.getD false = true then
          pyInt ((t.max_health : ℚ) * e.base_heal * e.heal_multiplier)
          else pyInt (e.base_heal * e.heal_multiplier)) := by
        have hm : (0 : ℚ) ≤ (t.max_health : ℚ) := by
          have := hbt2.1
          have := hbt2.2.1
          exact_mod_cast by omega
        split_ifs
        · exact pyInt_nonneg _ (mul_nonneg (mul_nonneg hm hb0) hm0)
        · exact pyInt_nonneg _ (mul_nonneg hb0 hm0)
      refine ⟨hbh, fun t2 ht2 => ?_⟩
      injection ht2 with ht2
      rw [← ht2]
      unfold statBounds at hbt2 ⊢
      dsimp only
      omega
  · rw [if_neg ha] at hout
    injection hout with hout
    subst hout
    dsimp only
    have hamt : 0 ≤ (if e.is_percentage.getD false = true then
        pyInt ((hero.max_health : ℚ) * e.base_heal * e.heal_multiplier)
        else pyInt (e.base_heal * e.heal_multiplier)) := by
      have hm : (0 : ℚ) ≤ (hero.max_health : ℚ) := by
        have := hbh.1
        have := hbh.2.1
        exact_mod_cast by omega
      split_ifs
      · exact pyInt_nonneg _ (mul_nonneg (mul_nonneg hm hb0) hm0)
      · exact pyInt_nonneg _ (mul_nonneg hb0 hm0)
    constructor
    · unfold statBounds at hbh ⊢
      dsimp only
      omega
    · exact hbt

lemma pyInt_mul_ge (d : Int) (q : ℚ) (hd : 0 ≤ d) (hq : 1 ≤ q) :
    d ≤ pyInt ((d : ℚ) * q) ∧ 0 ≤ pyInt ((d : ℚ) * q) := by
  have hq0 : (0 : ℚ) ≤ q := le_trans zero_le_one hq
  have h0 : (0 : ℚ) ≤ (d : ℚ) * q := mul_nonneg (by exact_mod_cast hd) hq0
  rw [pyInt_eq_floor _ h0]
  constructor
  · rw [Int.le_floor]
    exact le_mul_of_one_le_right (by exact_mod_cast hd) hq
  · exact Int.floor_nonneg.mpr h0

lemma roleCounterDamage_ge (ar tr : String) (d : Int) (hd : 0 ≤ d) :
    d ≤ roleCounterDamage ar tr d ∧ 0 ≤ roleCounterDamage ar tr d := by
  unfold roleCounterDamage
  split_ifs
  · exact pyInt_mul_ge d (6/5) hd (by norm_num)
  · exact pyInt_mul_ge d (6/5) hd (by norm_num)
  · exact pyInt_mul_ge d (6/5) hd (by norm_num)
  · exact pyInt_mul_ge d (3/2) hd (by norm_num)
  · exact ⟨le_refl d, hd⟩

lemma rarityCounterDamage_ge (ra rt : String) (d : Int) (hd : 0 ≤ d) :
    d ≤ rarityCounterDamage ra rt d ∧ 0 ≤ rarityCounterDamage ra rt d := by
  unfold rarityCounterDamage
  split_ifs
  · exact pyInt_mul_ge d (3/2) hd (by norm_num)
  · exact pyInt_mul_ge d 2 hd (by norm_num)
  · exact pyInt_mul_ge d (3/2) hd (by norm_num)
  · exact ⟨le_refl d, hd⟩

lemma rarityCounterDamage_empty (ra rt : String) (d : Int)
    (he : ra = "" ∨ rt = "") : rarityCounterDamage ra rt d = d := by
  unfold rarityCounterDamage
  rcases he with he | he <;> subst he <;> simp

lemma heroJC_eq_spJC (a t : Hero) (d : Int) :
    heroJobCounterDamage a t d = spJobCounterDamage a.role t.role d a.rank t.rank := by
  unfold heroJobCounterDamage spJobCounterDamage
  by_cases hg : a.rank ≠ "" ∧ t.rank ≠ ""
  · rw [if_pos hg]
  · rw [if_neg hg]
    apply rarityCounterDamage_empty
    by_cases ha : a.rank = ""
    · exact Or.inl ha
    · right
      by_cases ht : t.rank = ""
      · exact ht
      · exact absurd ⟨ha, ht⟩ hg

/-- C1: for every combatant and non-negative damage amount, `take_damage`
consumes shield before health: it absorbs `min(amount, shield)` from the
shield, then reduces health by the remainder, flooring health at 0 (stated
outside the separately specified unyielding-will interception; the worked
instance shield=50, health=100, damage=80 ↦ shield=0, health=70 is the
witness). -/
theorem take_damage_consumes_shield_first (h : Hero) (damage : Int)
    (hdmg : 0 ≤ damage) (hsh : 0 ≤ h.shield_amount) (hhl : 0 ≤ h.health)
    (hni : uwIntercepts h (damage - min damage h.shield_amount) = false) :
    (takeDamage h damage).1.shield_amount = h.shield_amount - min damage h.shield_amount ∧
    (takeDamage h damage).1.health = max 0 (h.health - (damage - min damage h.shield_amount)) :=
  ⟨takeDamage_shield h damage hsh hdmg,
   takeDamage_health_no_intercept h damage hsh hdmg hhl hni⟩

theorem take_damage_consumes_shield_first_witness :
    (takeDamage exShieldHero 80).1.shield_amount = 0 ∧
    (takeDamage exShieldHero 80).1.health = 70 := by
  have h := take_damage_consumes_shield_first exShieldHero 80
    (by decide) (by decide) (by decide) (by decide)
  constructor
  · rw [h.1]
    decide
  · rw [h.2]
    decide

/-- C3: a combatant under any control flag (frozen, stunned or paralyzed)
cannot act: `attack_target` and `use_skill` return a structured
blocked-by-control failure and leave attacker, target and RNG untouched. -/
theorem control_blocks_actions (h t : Hero) (i : Int) (rng : List ℚ)
    (hc : h.is_frozen = true ∨ h.is_stunned = true ∨ h.is_paralyzed = true) :
    attackTarget h t rng =
      (t, { damage := 0, is_crit := false, target_health := t.health,
            message := h.name ++ " 处于" ++
              (if h.is_frozen then "冻结" else if h.is_stunned then "眩晕" else "麻痹") ++
              "状态，无法行动" }, rng) ∧
    useSkill h i (some t) rng =
      .ok ⟨h, some t,
        { success := false,
          message := h.name ++ " 处于" ++
            (if h.is_frozen then "冻结" else if h.is_stunned then "眩晕" else "麻痹") ++
            "状态，无法使用技能" }, rng⟩ := by
  constructor
  · unfold attackTarget
    rw [if_pos hc]
  · unfold useSkill
    rw [if_pos hc]

theorem control_blocks_actions_witness :
    attackTarget exFrozenHero exTarget [] =
      (exTarget, { damage := 0, is_crit := false, target_health := exTarget.health,
                   message := "冻例 处于冻结状态，无法行动" }, []) ∧
    useSkill exFrozenHero 0 (some exTarget) [] =
      .ok ⟨exFrozenHero, some exTarget,
        { success := false, message := "冻例 处于冻结状态，无法使用技能" }, []⟩ := by
  have h := control_blocks_actions exFrozenHero exTarget 0 [] (Or.inl rfl)
  constructor
  · rw [h.1]
    rfl
  · rw [h.2]
    rfl

/-- C7: at the turn cap, the strictly lower-health combatant is forced to 0
deterministically (no RNG consumed, for every draw stream), and on an exact
health tie one uniform draw decides: below 0.5 the first combatant is forced
to 0, otherwise the second — so both tie outcomes occur over varied seeds. -/
theorem turn_cap_forcing (h1 h2 : Hero) :
    (∀ rng, h1.health < h2.health →
        forceTurnCapEnd h1 h2 rng = ({ h1 with health := 0 }, h2, rng)) ∧
    (∀ rng, h2.health < h1.health →
        forceTurnCapEnd h1 h2 rng = (h1, { h2 with health := 0 }, rng)) ∧
    (∀ (r : ℚ) (rng : List ℚ), h1.health = h2.health →
        (r < 1/2 → forceTurnCapEnd h1 h2 (r :: rng) = ({ h1 with health := 0 }, h2, rng)) ∧
        (¬ r < 1/2 → forceTurnCapEnd h1 h2 (r :: rng) = (h1, { h2 with health := 0 }, rng))) := by
  refine ⟨?_, ?_, ?_⟩
  · intro rng hlt
    unfold forceTurnCapEnd
    rw [if_pos hlt]
  · intro rng hlt
    unfold forceTurnCapEnd
    rw [if_neg (by omega), if_pos hlt]
  · intro r rng heq
    constructor <;> intro hr <;> unfold forceTurnCapEnd <;>
      rw [if_neg (by omega), if_neg (by omega)] <;> dsimp only [draw]
    · rw [if_pos hr]
    · rw [if_neg hr]

theorem turn_cap_forcing_witness :
    forceTurnCapEnd exLow exHigh [9/10] = ({ exLow with health := 0 }, exHigh, [9/10]) ∧
    forceTurnCapEnd exTie exHigh [1/4] = ({ exTie with health := 0 }, exHigh, []) ∧
    forceTurnCapEnd exTie exHigh [3/4] = (exTie, { exHigh with health := 0 }, []) := by
  have ha := turn_cap_forcing exLow exHigh
  have hb := turn_cap_forcing exTie exHigh
  exact ⟨ha.1 [9/10] (by decide),
         (hb.2.2 (1/4) [] (by decide)).1 (by norm_num),
         (hb.2.2 (3/4) [] (by decide)).2 (by norm_num)⟩

/-- C10: `run_battle` with an empty combatant slot does not run: it returns
the null outcome (no winner, 0 turns, empty log) and leaves the simulator
state untouched, for every action phase, turn cap and RNG stream. -/
theorem run_battle_without_combatants (phase : ActionPhase) (sim : Simulator)
    (maxTurns : Int) (rng : List ℚ)
    (hempty : sim.hero1 = none ∨ sim.hero2 = none) :
    runBattle phase sim maxTurns rng =
      (sim, { winner := none, turns := 0, log := [] }) := by
  obtain ⟨o1, o2, ct, bl⟩ := sim
  rcases hempty with he | he <;> dsimp only at he <;> subst he
  · rfl
  · cases o1 <;> rfl

theorem run_battle_without_combatants_witness :
    runBattle exPhase {} 100 [] =
      ({}, { winner := none, turns := 0, log := [] }) :=
  run_battle_without_combatants exPhase {} 100 [] (Or.inl rfl)

lemma applyStatusEffect_effects (h : Hero) (eff : StatusEffect) :
    (applyStatusEffect h eff).status_effects =
      (h.status_effects.filter (fun e => e.type ≠ eff.type)) ++ [eff] := by
  unfold applyStatusEffect
  dsimp only
  split_ifs <;> rfl

lemma applyBuffEffect_effects (h : Hero) (bt : String) (v : ℚ) (dur : Int) (pct : Bool) :
    ∃ e2, (applyBuffEffect h bt v dur pct).status_effects = h.status_effects ++ [e2] ∧
      e2.type = "buff" := by
  unfold applyBuffEffect
  dsimp only
  split_ifs <;> exact ⟨_, rfl, rfl⟩

lemma applyDebuffEffect_effects (h : Hero) (dt : String) (v : ℚ) (dur : Int) (pct : Bool) :
    ∃ e2, (applyDebuffEffect h dt v dur pct).status_effects = h.status_effects ++ [e2] ∧
      e2.type = "debuff" := by
  unfold applyDebuffEffect
  dsimp only
  split_ifs <;> exact ⟨_, rfl, rfl⟩

/-- C5 counterexample: applying the same flat +20 attack buff twice does NOT
replace the first one — the combatant ends up with two active effects of
type `buff` and a doubly-boosted attack of 140, refuting "at most one active
effect per effect type" for buffs. -/
theorem same_type_buffs_stack_counterexample :
    ((applyBuffEffect (applyBuffEffect exBuffHero "attack" 20 3 false)
        "attack" 20 3 false).status_effects.countP (fun e => e.type = "buff") = 2) ∧
    (applyBuffEffect (applyBuffEffect exBuffHero "attack" 20 3 false)
        "attack" 20 3 false).attack = 140 := by
  decide

/-- C5 amended: only `apply_status_effect` replaces an existing effect of the
same type (leaving exactly one effect of the applied type);
`apply_buff_effect` and `apply_debuff_effect` append their effect without
removing existing same-type effects, so same-type buffs/debuffs stack. -/
theorem status_effects_replace_buffs_stack (h : Hero) (eff : StatusEffect)
    (bt dt : String) (v : ℚ) (dur : Int) (pct : Bool) :
    ((applyStatusEffect h eff).status_effects.countP (fun e => e.type = eff.type) = 1) ∧
    (∃ e2, (applyBuffEffect h bt v dur pct).status_effects = h.status_effects ++ [e2] ∧
      e2.type = "buff") ∧
    (∃ e3, (applyDebuffEffect h dt v dur pct).status_effects = h.status_effects ++ [e3] ∧
      e3.type = "debuff") := by
  refine ⟨?_, applyBuffEffect_effects h bt v dur pct, applyDebuffEffect_effects h dt v dur pct⟩
  rw [applyStatusEffect_effects, List.countP_append]
  have h0 : (h.status_effects.filter (fun e => e.type ≠ eff.type)).countP
      (fun e => e.type = eff.type) = 0 := by
    rw [List.countP_eq_zero]
    intro a ha
    have := (List.mem_filter.mp ha).2
    simpa using this
  rw [h0]
  simp

/-- C6 counterexample: with identical inputs (attack 50 as base damage,
defense 0, level 1, crit chance 0, DPS attacking SNIP) and the same crit
draw, the basic-attack path yields 100 (floor applied after the role
multiplier) while the skill path yields 120 (floor applied inside
`process_damage`, before the multiplier). -/
theorem damage_paths_diverge_counterexample :
    (attackTarget exAttacker exDefender [0]).2.1.damage = 100 ∧
    (processCustomDamage exAttacker exDamageEffect (some exDefender)
        { success := true } [0]).result.effects.map (fun e => e.damage) = [120] ∧
    (100 : Int) ≠ 120 := by
  have hred : defenseReduction exDefender.defense exDefender.level = 0 := by
    norm_num [defenseReduction, exDefender, defenseParam1, defenseParam2]
  refine ⟨?_, ?_, by decide⟩
  · unfold attackTarget
    rw [if_neg (by decide)]
    dsimp only [draw]
    unfold attackTargetDamage mitigatedDamage
    rw [hred]
    unfold heroJobCounterDamage roleCounterDamage rarityCounterDamage
    norm_num [exAttacker, exDefender, pyInt, minDamage]
    decide
  · unfold processCustomDamage
    dsimp only [draw]
    unfold processDamage mitigatedDamage
    rw [hred]
    unfold spJobCounterDamage roleCounterDamage rarityCounterDamage
    norm_num [exAttacker, exDefender, exDamageEffect, pyInt, minDamage]
    decide

/-- C6 amended: the two damage paths share the same mitigation/crit core
formula and agree whenever the mitigated core damage reaches the configured
minimum-damage floor; they can differ below the floor only because the
basic-attack path applies the floor after the role/rarity multipliers while
the skill path applies it before them. -/
theorem damage_paths_agree_above_floor (a t : Hero) (r : ℚ)
    (hfloor : minDamage ≤
      (mitigatedDamage (a.attack : ℚ) t.defense a.crit_rate a.crit_damage t.level r).1) :
    (attackTargetDamage a t r).1 =
      spJobCounterDamage a.role t.role
        (processDamage (a.attack : ℚ) t.defense a.crit_rate a.crit_damage t.level r).1
        a.rank t.rank := by
  unfold attackTargetDamage processDamage
  dsimp only
  have hm0 : 0 ≤ (mitigatedDamage (a.attack : ℚ) t.defense a.crit_rate a.crit_damage
      t.level r).1 := le_trans (by norm_num [minDamage]) hfloor
  rw [max_eq_right hfloor, ← heroJC_eq_spJC]
  unfold heroJobCounterDamage
  have h1 := roleCounterDamage_ge a.role t.role _ hm0
  have h2 := rarityCounterDamage_ge a.rank t.rank _ h1.2
  have h3 : minDamage ≤ rarityCounterDamage a.rank t.rank
      (roleCounterDamage a.role t.role
        (mitigatedDamage (a.attack : ℚ) t.defense a.crit_rate a.crit_damage t.level r).1) :=
    le_trans hfloor (le_trans h1.1 h2.1)
  rw [max_eq_right h3]

theorem damage_paths_agree_above_floor_witness :
    (attackTargetDamage exStrongAttacker exDefender 0).1 =
      spJobCounterDamage exStrongAttacker.role exDefender.role
        (processDamage (exStrongAttacker.attack : ℚ) exDefender.defense
          exStrongAttacker.crit_rate exStrongAttacker.crit_damage exDefender.level 0).1
        exStrongAttacker.rank exDefender.rank := by
  apply damage_paths_agree_above_floor
  have hred : defenseReduction exDefender.defense exDefender.level = 0 := by
    norm_num [defenseReduction, exDefender, defenseParam1, defenseParam2]
  unfold mitigatedDamage
  rw [hred]
  norm_num [exStrongAttacker, pyInt, minDamage]

/-- C2: after every modelled state-mutating operation of the battle core —
taking damage (`take_damage`), healing (`_process_custom_heal`), buff
application (`apply_buff_effect`), buff/status expiry
(`update_hero_status`), and the self-sacrifice skill
(`_process_destruction_reforge`) — current health stays within
`[0, max_health]` and shield within `[0, max_shield]`, given non-negative
authored magnitudes and recorded deltas consistent with the state. -/
theorem battle_mutations_preserve_stat_bounds :
    (∀ (h : Hero) (damage : Int), 0 ≤ damage → statBounds h →
      statBounds (takeDamage h damage).1) ∧
    (∀ (hero : Hero) (e : CustomEffect) (target : Option Hero) (res : SkillResult)
      (rng : List ℚ) (out : ProcOut),
      statBounds hero → (∀ t2, target = some t2 → statBounds t2) →
      0 ≤ e.base_heal → 0 ≤ e.heal_multiplier →
      processCustomHeal hero e target res rng = .ok out →
      statBounds out.hero ∧ ∀ t2, out.target = some t2 → statBounds t2) ∧
    (∀ (h : Hero) (bt : String) (v : ℚ) (dur : Int) (pct : Bool),
      statBounds h → 0 ≤ v → statBounds (applyBuffEffect h bt v dur pct)) ∧
    (∀ (h : Hero), statBounds h → (∀ e ∈ h.status_effects, 0 ≤ maxHealthBoost e) →
      sumMHB h.status_effects ≤ h.max_health → statBounds (updateHeroStatus h)) ∧
    (∀ (hero t : Hero) (skill : Skill) (res : SkillResult) (rng : List ℚ),
      statBounds hero → statBounds t → 1 ≤ hero.max_health →
      statBounds (destructionReforge hero skill (some t) res rng).hero ∧
      ∀ t2, (destructionReforge hero skill (some t) res rng).target = some t2 →
        statBounds t2) :=
  ⟨fun h d hd hb => takeDamage_statBounds h d hd hb,
   fun hero e target res rng out hbh hbt hb0 hm0 hout =>
     processCustomHeal_statBounds hero e target res rng out hbh hbt hb0 hm0 hout,
   fun h bt v dur pct hb hv => applyBuffEffect_statBounds h bt v dur pct hb hv,
   fun h hb hnn hsum => updateHeroStatus_statBounds h hb hnn hsum,
   fun hero t skill res rng hbh hbt hmh =>
     destructionReforge_statBounds hero t skill res rng hbh hbt hmh⟩

theorem battle_mutations_preserve_stat_bounds_witness :
    statBounds (takeDamage exShieldHero 80).1 ∧
    statBounds exHealOut.hero ∧
    statBounds (applyBuffEffect exBuffHero "attack" 20 3 false) ∧
    statBounds (updateHeroStatus exShieldHero) ∧
    statBounds (destructionReforge exBuffHero exPlainSkill (some exTarget)
      { success := true } []).hero := by
  obtain ⟨h1, h2, h3, h4, h5⟩ := battle_mutations_preserve_stat_bounds
  have hbS : statBounds exShieldHero := ⟨by decide, by decide, by decide, by decide⟩
  have hbB : statBounds exBuffHero := ⟨by decide, by decide, by decide, by decide⟩
  have hbT : statBounds exTarget := ⟨by decide, by decide, by decide, by decide⟩
  refine ⟨h1 exShieldHero 80 (by decide) hbS, ?_, ?_, ?_, ?_⟩
  · exact (h2 exBuffHero exHealEffect none { success := true } [] exHealOut
      hbB (fun t2 ht2 => by simp at ht2) (by norm_num [exHealEffect])
      (by norm_num [exHealEffect]) rfl).1
  · exact h3 exBuffHero "attack" 20 3 false hbB (by norm_num)
  · exact h4 exShieldHero hbS (by simp [exShieldHero]) (by decide)
  · exact (h5 exBuffHero exTarget exPlainSkill { success := true } []
      hbB hbT (by decide)).1

lemma updateHeroStatus_uw_step (g : Hero) (rv : Bool) (n b : Int)
    (hg : g.uw = some ⟨rv, n, b⟩) (hse : g.status_effects = []) (hn : 0 < n) :
    (updateHeroStatus g).status_effects = [] ∧
    (updateHeroStatus g).uw = some ⟨rv, n - 1, if n - 1 = 0 then 0 else b⟩ ∧
    (updateHeroStatus g).attack = (if n - 1 = 0 then g.attack - b else g.attack) := by
  unfold updateHeroStatus
  rw [hse]
  dsimp only [List.foldl]
  unfold updatePassiveStates
  try dsimp only
  rw [hg]
  try dsimp only
  rw [if_pos hn]
  try dsimp only
  by_cases h0 : n - 1 = 0
  · rw [if_pos h0]
    refine ⟨rfl, ?_, ?_⟩
    · rw [if_pos h0, h0]
    · rw [if_pos h0]
  · rw [if_neg h0]
    refine ⟨rfl, ?_, ?_⟩
    · rw [if_neg h0]
    · rw [if_neg h0]

lemma updateHeroStatus_uw_iterate (rv : Bool) (b : Int) :
    ∀ (k : Nat) (g : Hero) (n : Int), (k : Int) < n →
    g.uw = some ⟨rv, n, b⟩ → g.status_effects = [] →
    (updateHeroStatus^[k] g).attack = g.attack ∧
    (updateHeroStatus^[k] g).uw = some ⟨rv, n - k, b⟩ ∧
    (updateHeroStatus^[k] g).status_effects = []
  | 0, g, n, hk, hg, hse => by
    refine ⟨rfl, ?_, hse⟩
    rw [Function.iterate_zero_apply, hg]
    norm_num
  | k + 1, g, n, hk, hg, hse => by
    have hn : 0 < n := by
      have : ((k : Int) + 1) < n := by exact_mod_cast hk
      omega
    have hstep := updateHeroStatus_uw_step g rv n b hg hse hn
    have hne : ¬ (n - 1 = 0) := by
      have : ((k : Int) + 1) < n := by exact_mod_cast hk
      omega
    rw [if_neg hne] at hstep
    rw [Function.iterate_succ_apply]
    have hih := updateHeroStatus_uw_iterate rv b k (updateHeroStatus g) (n - 1)
      (by push_cast; omega) hstep.2.1 hstep.1
    refine ⟨?_, ?_, hih.2.2⟩
    · rw [hih.1, hstep.2.2, if_neg hne]
    · rw [hih.2.1]
      congr 1
      push_cast
      ring_nf

/-- C4: the unyielding-will passive. (a) the first time health would drop
from positive to 0, the death is intercepted: health is set to
`int(max_health * 0.4)`, attack rises by `int(attack * (0.55 + level*0.05))`,
and the one-shot state becomes revived with a 10-turn boost counter;
(b) the boost is reverted exactly after 10 status ticks (attack unchanged for
the first 9, lowered by the recorded boost on the 10th); (c) with the
one-shot flag set, a second lethal hit is not intercepted: health floors at 0
and no passive triggers. -/
theorem unyielding_will_semantics :
    (∀ (h : Hero) (damage : Int) (st : UWState),
      h.uw = some st → st.revived = false → 0 ≤ h.shield_amount → 0 ≤ damage →
      0 < damage - min damage h.shield_amount → 0 < h.health →
      h.health ≤ damage - min damage h.shield_amount →
      (takeDamage h damage).1.health = pyInt ((h.max_health : ℚ) * (2/5)) ∧
      (takeDamage h damage).1.attack =
        h.attack + pyInt ((h.attack : ℚ) * (11/20 + (h.level : ℚ) * (1/20))) ∧
      (takeDamage h damage).1.uw =
        some ⟨true, 10, pyInt ((h.attack : ℚ) * (11/20 + (h.level : ℚ) * (1/20)))⟩ ∧
      (takeDamage h damage).2.passive_triggered = true) ∧
    (∀ (g : Hero) (rv : Bool) (b : Int),
      g.uw = some ⟨rv, 10, b⟩ → g.status_effects = [] →
      (∀ k : Nat, k ≤ 9 → (updateHeroStatus^[k] g).attack = g.attack) ∧
      (updateHeroStatus^[10] g).attack = g.attack - b) ∧
    (∀ (h : Hero) (damage : Int) (st : UWState),
      h.uw = some st → st.revived = true → 0 ≤ h.shield_amount → 0 ≤ damage →
      0 ≤ h.health →
      (takeDamage h damage).1.health =
        max 0 (h.health - (damage - min damage h.shield_amount)) ∧
      (takeDamage h damage).2.passive_triggered = false) := by
  refine ⟨?_, ?_, ?_⟩
  · intro h damage st huw hrv hsh hd hrem halive hlethal
    obtain ⟨a1, a2, a3, a4, _⟩ :=
      takeDamage_intercept h damage st huw hrv hsh hd hrem halive hlethal
    exact ⟨a1, a2, a3, a4⟩
  · intro g rv b hg hse
    constructor
    · intro k hk
      exact (updateHeroStatus_uw_iterate rv b k g 10 (by exact_mod_cast by omega) hg hse).1
    · have h9 := updateHeroStatus_uw_iterate rv b 9 g 10 (by norm_num) hg hse
      rw [show (10 : Nat) = 9 + 1 from rfl, Function.iterate_succ_apply']
      have hstep := updateHeroStatus_uw_step (updateHeroStatus^[9] g) rv (10 - (9:Nat)) b
        h9.2.1 h9.2.2 (by norm_num)
      have h10 : ((10 : Int) - (9:Nat) - 1 = 0) := by norm_num
      rw [hstep.2.2, h9.1, if_pos h10]
  · intro h damage st huw hrv hsh hd hhl
    exact takeDamage_no_retrigger h damage st huw hrv hsh hd hhl

theorem unyielding_will_semantics_witness :
    (takeDamage exUWHero 10).1.health = 400 ∧
    (takeDamage exUWHero 10).1.attack = 160 ∧
    (takeDamage exUWHero 10).2.passive_triggered = true ∧
    (updateHeroStatus^[9] exUWRevived).attack = 160 ∧
    (updateHeroStatus^[10] exUWRevived).attack = 100 ∧
    (takeDamage exUWRevived 400).2.passive_triggered = false := by
  obtain ⟨ha, hb, hc⟩ := unyielding_will_semantics
  have h1 := ha exUWHero 10 ⟨false, 0, 0⟩ rfl rfl (by decide) (by decide)
    (by decide) (by decide) (by decide)
  have h2 := hb exUWRevived true 60 rfl rfl
  have h3 := hc exUWRevived 400 ⟨true, 10, 60⟩ rfl rfl (by decide) (by decide) (by decide)
  refine ⟨?_, ?_, h1.2.2.2, ?_, ?_, h3.2⟩
  · rw [h1.1]
    norm_num [pyInt, exUWHero]
  · rw [h1.2.1]
    norm_num [pyInt, exUWHero]
  · exact h2.1 9 (by norm_num)
  · rw [h2.2]
    norm_num [exUWRevived]

/-- C8 counterexample: a cooldown-3 skill used on turn 1 is usable again on
turn 4 (the claim asserts it still fails on turn 4): the end-of-turn decay
runs in the casting turn too, so the counter reaches 0 after three decays. -/
theorem cooldown_usable_on_turn_four_counterexample :
    okSuccess (useSkill exCdHero 0 (some exTarget) []) = true ∧
    okSuccess (useSkill (tickCooldowns (okHero (useSkill exCdHero 0 (some exTarget) [])
      exCdHero)) 0 (some exTarget) []) = false ∧
    okSuccess (useSkill (tickCooldowns (tickCooldowns (okHero
      (useSkill exCdHero 0 (some exTarget) []) exCdHero))) 0 (some exTarget) []) = false ∧
    okSuccess (useSkill (tickCooldowns (tickCooldowns (tickCooldowns (okHero
      (useSkill exCdHero 0 (some exTarget) []) exCdHero)))) 0 (some exTarget) []) = true := by
  decide

/-- C8 amended: a skill with cooldown 3 successfully used on turn 1 fails
with a cooldown failure on turns 2 and 3 and succeeds again on turn 4
(not 5), because `_end_of_turn` decrements cooldowns at the end of every
turn including the turn of use; stated for a caster free of control effects
holding one no-op authored skill. -/
theorem cooldown_lifecycle_amended (h t : Hero) (s : Skill) (rng : List ℚ)
    (hf : h.is_frozen = false) (hs : h.is_stunned = false) (hp : h.is_paralyzed = false)
    (hsk : h.skills = [s]) (hcd : s.cooldown = 3) (hcc : s.current_cooldown = 0)
    (he : s.has_effects = true) (hes : s.effects = []) :
    (useSkill h 0 (some t) rng).map (fun o => o.result.success) = .ok true ∧
    (useSkill (tickCooldowns (okHero (useSkill h 0 (some t) rng) h)) 0 (some t) rng).map
      (fun o => o.result.success) = .ok false ∧
    (useSkill (tickCooldowns (tickCooldowns (okHero (useSkill h 0 (some t) rng) h))) 0
      (some t) rng).map (fun o => o.result.success) = .ok false ∧
    (useSkill (tickCooldowns (tickCooldowns (tickCooldowns
        (okHero (useSkill h 0 (some t) rng) h)))) 0 (some t) rng).map
      (fun o => o.result.success) = .ok true := by
  have hu1 : useSkill h 0 (some t) rng =
      .ok ⟨{ h with skills := [{ s with current_cooldown := 3 }] }, some t,
           { success := true, skill_name := s.name }, rng⟩ := by
    simp [useSkill, processSkill, processCustomSkill, hf, hs, hp, hsk, hcd, hcc, he, hes,
      pure, Except.pure, Hero.mk.injEq, Skill.mk.injEq, ProcOut.mk.injEq, SkillResult.mk.injEq]
  have hg1 : okHero (useSkill h 0 (some t) rng) h =
      { h with skills := [{ s with current_cooldown := 3 }] } := by
    rw [hu1]
    rfl
  have ht1 : tickCooldowns { h with skills := [{ s with current_cooldown := 3 }] } =
      { h with skills := [{ s with current_cooldown := 2 }] } := by
    simp [tickCooldowns, Hero.mk.injEq, Skill.mk.injEq]
  have ht2 : tickCooldowns { h with skills := [{ s with current_cooldown := 2 }] } =
      { h with skills := [{ s with current_cooldown := 1 }] } := by
    simp [tickCooldowns, Hero.mk.injEq, Skill.mk.injEq]
  have ht3 : tickCooldowns { h with skills := [{ s with current_cooldown := 1 }] } =
      { h with skills := [{ s with current_cooldown := 0 }] } := by
    simp [tickCooldowns, Hero.mk.injEq, Skill.mk.injEq]
  refine ⟨by rw [hu1]; rfl, ?_, ?_, ?_⟩
  · rw [hg1, ht1]
    simp [useSkill, hf, hs, hp, Except.map]
  · rw [hg1, ht1, ht2]
    simp [useSkill, hf, hs, hp, Except.map]
  · rw [hg1, ht1, ht2, ht3]
    simp [useSkill, processSkill, processCustomSkill, hf, hs, hp, hcd, he, hes,
      pure, Except.pure, Except.map]

theorem cooldown_lifecycle_amended_witness :
    (useSkill exCdHero 0 (some exTarget) []).map (fun o => o.result.success) = .ok true ∧
    (useSkill (tickCooldowns (okHero (useSkill exCdHero 0 (some exTarget) []) exCdHero)) 0
      (some exTarget) []).map (fun o => o.result.success) = .ok false ∧
    (useSkill (tickCooldowns (tickCooldowns (okHero (useSkill exCdHero 0 (some exTarget) [])
      exCdHero))) 0 (some exTarget) []).map (fun o => o.result.success) = .ok false ∧
    (useSkill (tickCooldowns (tickCooldowns (tickCooldowns (okHero
      (useSkill exCdHero 0 (some exTarget) []) exCdHero)))) 0 (some exTarget) []).map
      (fun o => o.result.success) = .ok true :=
  cooldown_lifecycle_amended exCdHero exTarget exCdSkill [] rfl rfl rfl rfl rfl rfl rfl rfl

/-- C9: flat-buff reversion is an exact round trip. Applying a flat +20
attack buff raises attack by exactly 20; with an intervening mutation of
another stat (a percentage defense buff) active during its lifetime, three
status ticks expire the buff and return attack to exactly its pre-buff
value; and in general expiry subtracts exactly the delta recorded at apply
time regardless of the attack value at expiry (so intervening attack
mutations are preserved, not clobbered by a recomputation). -/
theorem flat_attack_buff_exact_revert (h : Hero) (d : ℚ)
    (hse : h.status_effects = []) (huw : h.uw = none) :
    (applyBuffEffect h "attack" 20 3 false).attack = h.attack + 20 ∧
    (updateHeroStatus (updateHeroStatus (updateHeroStatus
      (applyBuffEffect (applyBuffEffect h "attack" 20 3 false) "defense" d 5 true)))).attack
      = h.attack ∧
    (∀ (g : Hero) (e : StatusEffect), e.type = "buff" → e.buff_type = "attack" →
      e.boost_amount = 20 → (removeBuffEffect g e).attack = g.attack - 20) := by
  refine ⟨?_, ?_, ?_⟩
  · simp [applyBuffEffect]
    norm_num [pyInt]
  · simp [applyBuffEffect, updateHeroStatus, tickEffect, StatusEffect.tick, updatePassiveStates,
      removeBuffEffect, removeDebuffEffect, hse, huw]
  · intro g e ht hbt hb
    simp [removeBuffEffect, hbt, hb]

theorem flat_attack_buff_exact_revert_witness :
    (applyBuffEffect exBuffHero "attack" 20 3 false).attack = 120 ∧
    (updateHeroStatus (updateHeroStatus (updateHeroStatus
      (applyBuffEffect (applyBuffEffect exBuffHero "attack" 20 3 false)
        "defense" 0 5 true)))).attack = 100 := by
  have h := flat_attack_buff_exact_revert exBuffHero 0 rfl rfl
  constructor
  · rw [h.1]
    decide
  · rw [h.2.1]
    decide
